import Mathlib

/-!
Verification development for the TerraSatch ingestion service
(`app/utils.py`, `app/normalizers.py`, `app/routes.py`).

The payloads handled by the service are JSON documents decoded by Python
(`json.loads` / FastAPI): string-keyed mappings whose values are null,
booleans, integers, floats, strings, arrays or nested mappings.  JSON
numbers are decimal literals, so floats are embedded exactly as scaled
decimals (an integer mantissa together with a power-of-ten shift); JSON
itself cannot produce non-finite floats.  Python conflates an absent key
with a key whose value is null (`dict.get` returns `None` for both), which
the embedding mirrors through `dictGet`; genuine key presence is still
observable on the underlying association list.

Deliberate approximations, none of which is observable by the theorems
below: Python renders `str` of nested containers with repr quoting while
the embedding reuses the JSON rendering (both are non-empty exactly when
those of Python); underscore separators inside numeric string literals
(`int("1_0")`) are not modelled; `float("inf")`/`float("nan")` are treated
as unparseable since their values have no finite decimal representation;
`str.strip` removes the ASCII whitespace characters.
-/

namespace TerraSatch

/-- Embedded JSON value as decoded by Python.  Floats are exact scaled
decimals: `float man exp10` denotes `man / 10 ^ exp10`. -/
inductive JVal where
  | null
  | bool (b : Bool)
  | int (n : Int)
  | float (man : Int) (exp10 : Nat)
  | str (s : String)
  | arr (elems : List JVal)
  | obj (entries : List (String × JVal))

/-- Raw payloads and provider metadata are Python dicts: ordered association
lists with (in practice) unique keys; lookup takes the first match. -/
abbrev Obj := List (String × JVal)

/-- Python `d.get(k)`: the value stored under `k`, or `None` when absent.
A stored JSON null and a missing key both come back as `.null`, exactly as
`dict.get` returns the `None` object for both. -/
def dictGet : Obj → String → JVal
  | [], _ => .null
  | (k, v) :: rest, key => if k = key then v else dictGet rest key

/-- Python `d[k] = v`: replace the value of the first entry with key `k`
in place (dicts keep insertion order on update), or append a new entry. -/
def dictSet : Obj → String → JVal → Obj
  | [], key, v => [(key, v)]
  | (k, w) :: rest, key, v =>
    if k = key then (k, v) :: rest else (k, w) :: dictSet rest key v

/-- Python `k in d`: true key presence, distinguishable from a null value. -/
def dictHasKey : Obj → String → Bool
  | [], _ => false
  | (k, _) :: rest, key => k = key || dictHasKey rest key

/-- Lookup returning `none` only when the key is genuinely absent. -/
def dictFind : Obj → String → Option JVal
  | [], _ => none
  | (k, v) :: rest, key => if k = key then some v else dictFind rest key

/-- Python truthiness of a decoded JSON value: `None`, `False`, zero,
empty string and empty containers are falsy. -/
def truthy : JVal → Bool
  | .null => false
  | .bool b => b
  | .int n => n != 0
  | .float m _ => m != 0
  | .str s => s != ""
  | .arr elems => !elems.isEmpty
  | .obj entries => !entries.isEmpty

/-- Python `a or b`: `a` when truthy, else `b` (whatever its truthiness). -/
def pyOr (a b : JVal) : JVal := if truthy a then a else b

/-- Left-associated Python `payload.get(k1) or payload.get(k2) or ...` over
an ordered candidate-key list; an empty list yields `None`. -/
def orChain (p : Obj) (keys : List String) : JVal :=
  keys.foldl (fun acc k => pyOr acc (dictGet p k)) .null

/-- Python `str.strip()` (ASCII whitespace). -/
def stripChars (s : String) : String :=
  String.mk ((s.data.dropWhile Char.isWhitespace).reverse.dropWhile Char.isWhitespace |>.reverse)

/-- Python `str.lower()` (ASCII case). -/
def lowerStr (s : String) : String := String.mk (s.data.map Char.toLower)

/-- Zero-padding used by `datetime.isoformat` style rendering. -/
def padLeftZeros (w : Nat) (s : String) : String :=
  String.mk (List.replicate (w - s.length) (Char.ofNat 48)) ++ s

/-- Numeric value of a digit list, most significant first. -/
def digitsVal (cs : List Char) : Nat :=
  cs.foldl (fun acc c => acc * 10 + (c.toNat - 48)) 0

/-- Strip trailing decimal zeros from a scaled-decimal float, as Python
float repr does for values that are exact decimals. -/
def normFloat : Int → Nat → Int × Nat
  | m, 0 => (m, 0)
  | m, e + 1 => if m % 10 = 0 then normFloat (Int.tdiv m 10) e else (m, e + 1)

/-- Python `repr`/`str` of a float holding an exact decimal value,
e.g. `48.5`, `-0.5`, `18.0`. -/
def pyFloatRepr (man : Int) (exp10 : Nat) : String :=
  let me := normFloat man exp10
  let m := me.1
  let e := me.2
  if e = 0 then toString m ++ ".0"
  else
    let sign := if m < 0 then "-" else ""
    let ds := padLeftZeros (e + 1) (toString m.natAbs)
    sign ++ String.mk (ds.data.take (ds.data.length - e)) ++ "." ++
      String.mk (ds.data.drop (ds.data.length - e))

/-- Comma-space separator used by `json.dumps` default rendering. -/
def joinComma : List String → String
  | [] => ""
  | [s] => s
  | s :: rest => s ++ ", " ++ joinComma rest

/-- Python `json.dumps` of a decoded value (default separators; the string
keys occurring in this development need no escaping). -/
def jsonDumps : JVal → String
  | .null => "null"
  | .bool b => if b then "true" else "false"
  | .int n => toString n
  | .float m e => pyFloatRepr m e
  | .str s => "\"" ++ s ++ "\""
  | .arr elems =>
    "[" ++ joinComma (elems.attach.map (fun x => jsonDumps x.1)) ++ "]"
  | .obj entries =>
    "\x7b" ++ joinComma (entries.attach.map
      (fun x => "\"" ++ x.1.1 ++ "\": " ++ jsonDumps x.1.2)) ++ "\x7d"
decreasing_by
  · have h1 := List.sizeOf_lt_of_mem x.2
    have h2 : sizeOf (JVal.arr elems) = 1 + sizeOf elems := by simp
    omega
  · have h1 := List.sizeOf_lt_of_mem x.2
    have h2 : sizeOf (JVal.obj entries) = 1 + sizeOf entries := by simp
    have h3 : sizeOf x.1 = 1 + sizeOf x.1.1 + sizeOf x.1.2 := by
      cases x.1 with
      | mk a b => simp
    omega

/-- Python `str()` of a decoded value.  Scalar cases are exact; containers
reuse the JSON rendering (see the module comment). -/
def pyStr : JVal → String
  | .null => "None"
  | .bool b => if b then "True" else "False"
  | .int n => toString n
  | .float m e => pyFloatRepr m e
  | .str s => s
  | v => jsonDumps v

/-- Python `int(str)`: optional surrounding whitespace, optional sign,
one or more decimal digits. -/
def parseIntLit (s : String) : Option Int :=
  match (stripChars s).data with
  | [] => none
  | c :: rest =>
    let signed : Int × List Char :=
      if c = Char.ofNat 43 then (1, rest)
      else if c = Char.ofNat 45 then (-1, rest)
      else (1, c :: rest)
    if signed.2 ≠ [] ∧ signed.2.all Char.isDigit then
      some (signed.1 * (digitsVal signed.2 : Int))
    else none

/-- Python `float(str)` for finite decimal literals: optional sign, digits
with optional fractional part (at least one digit overall), optional
exponent.  Result is an exact scaled decimal. -/
def parseFloatLit (s : String) : Option (Int × Nat) :=
  match (lowerStr (stripChars s)).data with
  | [] => none
  | cs0 =>
    let signed : Int × List Char :=
      match cs0 with
      | c :: rest =>
        if c = Char.ofNat 43 then (1, rest)
        else if c = Char.ofNat 45 then (-1, rest)
        else (1, cs0)
      | [] => (1, cs0)
    let sgn := signed.1
    let intDigits := signed.2.takeWhile Char.isDigit
    let afterInt := signed.2.drop intDigits.length
    let fracState : Option (List Char × List Char) :=
      match afterInt with
      | c :: rest =>
        if c = Char.ofNat 46 then
          let fd := rest.takeWhile Char.isDigit
          some (fd, rest.drop fd.length)
        else some ([], afterInt)
      | [] => some ([], [])
    match fracState with
    | none => none
    | some fs =>
      let fracDigits := fs.1
      let afterFrac := fs.2
      if intDigits = [] ∧ fracDigits = [] then none
      else
        let expVal : Option Int :=
          match afterFrac with
          | [] => some 0
          | c :: rest =>
            if c = Char.ofNat 101 then
              let esigned : Int × List Char :=
                match rest with
                | c2 :: rest2 =>
                  if c2 = Char.ofNat 43 then (1, rest2)
                  else if c2 = Char.ofNat 45 then (-1, rest2)
                  else (1, rest)
                | [] => (1, rest)
              if esigned.2 ≠ [] ∧ esigned.2.all Char.isDigit then
                some (esigned.1 * (digitsVal esigned.2 : Int))
              else none
            else none
        match expVal with
        | none => none
        | some e =>
          let man : Int := sgn * (digitsVal (intDigits ++ fracDigits) : Int)
          let net : Int := e - (fracDigits.length : Int)
          if 0 ≤ net then some (man * 10 ^ net.toNat, 0)
          else some (man, (-net).toNat)

/-- Python `float(x)` under `try: ... except (ValueError, TypeError)`:
numbers and booleans convert, numeric strings parse, everything else
(including `None` and containers, whose conversion raises) yields `none`. -/
def pyFloat : JVal → Option (Int × Nat)
  | .null => none
  | .bool b => some (if b then 1 else 0, 0)
  | .int n => some (n, 0)
  | .float m e => some (m, e)
  | .str s => parseFloatLit s
  | .arr _ => none
  | .obj _ => none

/-- Python `int(x)` under `try: ... except (ValueError, TypeError)`:
floats truncate toward zero, integer-formatted strings parse, everything
else yields `none`. -/
def pyInt : JVal → Option Int
  | .null => none
  | .bool b => some (if b then 1 else 0)
  | .int n => some n
  | .float m e => some (Int.tdiv m (10 ^ e))
  | .str s => parseIntLit s
  | .arr _ => none
  | .obj _ => none

/-! ### Timestamp parsing (`app/utils.py`, `parse_timestamp`)

CPython `datetime.strptime` compiles a format string to a regular
expression (module `_strptime`, compiled with `IGNORECASE`) and requires
the match to span the whole input.  The embedding mirrors that with
list-of-successes parsers whose alternative order is the ordered
alternation of the CPython field regexes, so the first full parse found is
the one the regex engine would commit to. -/

/-- Backtracking parser: every way to consume an initial segment, in
regex alternation-priority order. -/
abbrev Parser (α : Type) := List Char → List (α × List Char)

instance : Monad Parser where
  pure a := fun cs => [(a, cs)]
  bind p f := fun cs => (p cs).flatMap (fun ar => f ar.1 ar.2)

/-- Ordered alternation, first alternative preferred. -/
def pAlt (ps : List (Parser α)) : Parser α := fun cs => ps.flatMap (fun p => p cs)

/-- Consume one character satisfying the predicate. -/
def pSkip (f : Char → Bool) : Parser Unit := fun cs =>
  match cs with
  | c :: rest => if f c then [((), rest)] else []
  | [] => []

/-- Consume one decimal digit, returning its value. -/
def pDigit : Parser Nat := fun cs =>
  match cs with
  | c :: rest => if c.isDigit then [(c.toNat - 48, rest)] else []
  | [] => []

/-- Consume one decimal digit with value in `[lo, hi]`. -/
def pDigitRange (lo hi : Nat) : Parser Nat := fun cs =>
  match cs with
  | c :: rest =>
    if c.isDigit ∧ lo ≤ c.toNat - 48 ∧ c.toNat - 48 ≤ hi then [(c.toNat - 48, rest)] else []
  | [] => []

/-- Consume exactly `n` digits, accumulating their value. -/
def pNDigitsAux : Nat → Nat → Parser Nat
  | 0, acc => pure acc
  | n + 1, acc => do
    let d ← pDigit
    pNDigitsAux n (acc * 10 + d)

/-- CPython `%Y`: exactly four digits. -/
def pYear4 : Parser Nat := pNDigitsAux 4 0

/-- CPython `%m`: `1[0-2] | 0[1-9] | [1-9]`. -/
def pMonth : Parser Nat :=
  pAlt [
    do pSkip (fun c => c = Char.ofNat 49); let d ← pDigitRange 0 2; pure (10 + d),
    do pSkip (fun c => c = Char.ofNat 48); pDigitRange 1 9,
    pDigitRange 1 9]

/-- CPython `%d`: `3[01] | [1-2]\d | 0[1-9] | [1-9] | [1-2]`. -/
def pDay : Parser Nat :=
  pAlt [
    do pSkip (fun c => c = Char.ofNat 51); let d ← pDigitRange 0 1; pure (30 + d),
    do let a ← pDigitRange 1 2; let b ← pDigit; pure (10 * a + b),
    do pSkip (fun c => c = Char.ofNat 48); pDigitRange 1 9,
    pDigitRange 1 9,
    pDigitRange 1 2]

/-- CPython `%H`: `2[0-3] | [0-1]\d | \d`. -/
def pHour : Parser Nat :=
  pAlt [
    do pSkip (fun c => c = Char.ofNat 50); let d ← pDigitRange 0 3; pure (20 + d),
    do let a ← pDigitRange 0 1; let b ← pDigit; pure (10 * a + b),
    pDigit]

/-- CPython `%M`: `[0-5]\d | \d`. -/
def pMinute : Parser Nat :=
  pAlt [
    do let a ← pDigitRange 0 5; let b ← pDigit; pure (10 * a + b),
    pDigit]

/-- CPython `%S`: `6[0-1] | [0-5]\d | \d` (values 60-61 are rejected later
by the `datetime` constructor). -/
def pSecond : Parser Nat :=
  pAlt [
    do pSkip (fun c => c = Char.ofNat 54); let d ← pDigitRange 0 1; pure (60 + d),
    do let a ← pDigitRange 0 5; let b ← pDigit; pure (10 * a + b),
    pDigit]

/-- CPython `%f`: one to six digits, greedy, scaled to microseconds. -/
def pMicro : Parser Nat :=
  pAlt ([6, 5, 4, 3, 2, 1].map (fun n => do
    let v ← pNDigitsAux n 0
    pure (v * 10 ^ (6 - n))))

/-- Sign character of a `%z` offset. -/
def pSignChar : Parser Int := fun cs =>
  match cs with
  | c :: rest =>
    if c = Char.ofNat 43 then [(1, rest)]
    else if c = Char.ofNat 45 then [(-1, rest)]
    else []
  | [] => []

/-- Optional colon (`:?`, greedy: the consuming branch first). -/
def pColonOpt : Parser Bool := fun cs =>
  match cs with
  | c :: rest => if c = Char.ofNat 58 then [(true, rest), (false, cs)] else [(false, cs)]
  | [] => [(false, [])]

/-- Optional seconds part of a `%z` offset, `(:?\d\d(\.\d{1,6})?)?`.
CPython strips a colon after the hours and then demands the seconds colon
agree with it, raising (hence failing the format) on mixed styles. -/
def pZSeconds (colon1 : Bool) : Parser (Nat × Nat) :=
  pAlt [
    do
      let colon2 ← pColonOpt
      if colon2 = colon1 then
        let s ← pNDigitsAux 2 0
        let frac ← pAlt [
          do pSkip (fun c => c = Char.ofNat 46); pMicro,
          pure 0]
        pure (s, frac)
      else fun _ => [],
    pure (0, 0)]

/-- CPython `%z`: `[+-]\d\d:?\d\d(:?\d\d(\.\d{1,6})?)? | Z` (the `Z`
alternative is case-sensitive).  Yields the offset in microseconds. -/
def pZOffset : Parser Int :=
  pAlt [
    do
      let sgn ← pSignChar
      let h ← pNDigitsAux 2 0
      let colon1 ← pColonOpt
      let m ← pNDigitsAux 2 0
      let sp ← pZSeconds colon1
      pure (sgn * (((h * 3600 + m * 60 + sp.1) * 1000000 + sp.2 : Nat) : Int)),
    fun cs =>
      match cs with
      | c :: rest => if c = Char.ofNat 90 then [(0, rest)] else []
      | [] => []]

/-- Date and time fields recovered by one `strptime` format, plus the
parsed UTC offset when the format carries `%z` (or a literal `Z` treated
as naive and later assumed UTC). -/
structure ParsedDT where
  year : Nat
  month : Nat
  day : Nat
  hour : Nat
  minute : Nat
  second : Nat
  us : Nat
  tzOffsetUs : Option Int
  deriving Repr, DecidableEq

/-- Shared `%Y-%m-%d` piece. -/
def pDate : Parser (Nat × Nat × Nat) := do
  let y ← pYear4
  pSkip (fun c => c = Char.ofNat 45)
  let mo ← pMonth
  pSkip (fun c => c = Char.ofNat 45)
  let d ← pDay
  pure (y, mo, d)

/-- Shared `%H:%M:%S` piece. -/
def pTimeHMS : Parser (Nat × Nat × Nat) := do
  let h ← pHour
  pSkip (fun c => c = Char.ofNat 58)
  let mi ← pMinute
  pSkip (fun c => c = Char.ofNat 58)
  let s ← pSecond
  pure (h, mi, s)

/-- Literal `T` separator (the whole pattern is compiled `IGNORECASE`). -/
def pTSep : Parser Unit := pSkip (fun c => c.toLower = Char.ofNat 116)

/-- Literal `Z` as a format literal (case-insensitive, unlike `%z`). -/
def pZLit : Parser Unit := pSkip (fun c => c.toLower = Char.ofNat 122)

/-- Whitespace run: a space in the format matches `\s+`. -/
def pSpaceRun : Parser Unit := fun cs =>
  let rest := cs.dropWhile Char.isWhitespace
  if rest.length < cs.length then [((), rest)] else []

/-- Format `%Y-%m-%dT%H:%M:%SZ` (naive, `Z` is a literal). -/
def fmtA : Parser ParsedDT := do
  let d ← pDate
  pTSep
  let t ← pTimeHMS
  pZLit
  pure ⟨d.1, d.2.1, d.2.2, t.1, t.2.1, t.2.2, 0, none⟩

/-- Format `%Y-%m-%dT%H:%M:%S%z`. -/
def fmtB : Parser ParsedDT := do
  let d ← pDate
  pTSep
  let t ← pTimeHMS
  let z ← pZOffset
  pure ⟨d.1, d.2.1, d.2.2, t.1, t.2.1, t.2.2, 0, some z⟩

/-- Format `%Y-%m-%dT%H:%M:%S.%f%z`. -/
def fmtC : Parser ParsedDT := do
  let d ← pDate
  pTSep
  let t ← pTimeHMS
  pSkip (fun c => c = Char.ofNat 46)
  let us ← pMicro
  let z ← pZOffset
  pure ⟨d.1, d.2.1, d.2.2, t.1, t.2.1, t.2.2, us, some z⟩

/-- Format `%Y-%m-%dT%H:%M:%S.%fZ` (naive, `Z` is a literal). -/
def fmtD : Parser ParsedDT := do
  let d ← pDate
  pTSep
  let t ← pTimeHMS
  pSkip (fun c => c = Char.ofNat 46)
  let us ← pMicro
  pZLit
  pure ⟨d.1, d.2.1, d.2.2, t.1, t.2.1, t.2.2, us, none⟩

/-- Format `%Y-%m-%d %H:%M:%S` (naive). -/
def fmtE : Parser ParsedDT := do
  let d ← pDate
  pSpaceRun
  let t ← pTimeHMS
  pure ⟨d.1, d.2.1, d.2.2, t.1, t.2.1, t.2.2, 0, none⟩

/-- Format `%Y-%m-%d` (naive, midnight). -/
def fmtF : Parser ParsedDT := do
  let d ← pDate
  pure ⟨d.1, d.2.1, d.2.2, 0, 0, 0, 0, none⟩

/-- The fixed format list of `parse_timestamp`, in source order. -/
def timestampFormats : List (Parser ParsedDT) := [fmtA, fmtB, fmtC, fmtD, fmtE, fmtF]

/-- Run one format: commit to the first match in regex priority order, then require
it to span the whole input (as `_strptime` does). -/
def runFormat (p : Parser ParsedDT) (cs : List Char) : Option ParsedDT :=
  match p cs with
  | [] => none
  | (dt, rest) :: _ => if rest.isEmpty then some dt else none

/-- Proleptic Gregorian leap-year test. -/
def isLeapYear (y : Nat) : Bool := (y % 4 = 0 && y % 100 ≠ 0) || y % 400 = 0

/-- Length of a month in the proleptic Gregorian calendar. -/
def daysInMonth (y m : Nat) : Nat :=
  if m = 2 then (if isLeapYear y then 29 else 28)
  else if m = 4 ∨ m = 6 ∨ m = 9 ∨ m = 11 then 30
  else 31

/-- Bounds check performed by the `timezone` constructor: offsets must be
strictly within one day. -/
def offsetOk : Option Int → Bool
  | none => true
  | some off => -86400000000 < off && off < 86400000000

/-- Rendering of a UTC offset as `datetime.isoformat` does:
`±HH:MM`, with `:SS` when seconds are non-zero and `.ffffff` when
microseconds are. -/
def renderOffset (offUs : Int) : String :=
  let sign := if offUs < 0 then "-" else "+"
  let a := offUs.natAbs
  let us := a % 1000000
  let tot := a / 1000000
  let ss := tot % 60
  sign ++ padLeftZeros 2 (toString (tot / 3600)) ++ ":" ++
    padLeftZeros 2 (toString (tot % 3600 / 60)) ++
    (if ss ≠ 0 ∨ us ≠ 0 then
      ":" ++ padLeftZeros 2 (toString ss) ++
        (if us ≠ 0 then "." ++ padLeftZeros 6 (toString us) else "")
    else "")

/-- Date-time body of `datetime.isoformat` (microseconds omitted when 0). -/
def renderIsoBody (year mo d h mi s us : Nat) : String :=
  padLeftZeros 4 (toString year) ++ "-" ++ padLeftZeros 2 (toString mo) ++ "-" ++
    padLeftZeros 2 (toString d) ++ "T" ++ padLeftZeros 2 (toString h) ++ ":" ++
    padLeftZeros 2 (toString mi) ++ ":" ++ padLeftZeros 2 (toString s) ++
    (if us ≠ 0 then "." ++ padLeftZeros 6 (toString us) else "")

/-- Full `datetime.isoformat()` of an aware datetime. -/
def renderIso (year mo d h mi s us : Nat) (offUs : Int) : String :=
  renderIsoBody year mo d h mi s us ++ renderOffset offUs

/-- Range checks done by the `datetime`/`timezone` constructors after the
regex has matched; a parse lacking a timezone is assumed UTC, and the
result is rendered with its explicit offset. -/
def validateParsed (dt : ParsedDT) : Option String :=
  if 1 ≤ dt.year ∧ 1 ≤ dt.day ∧ dt.day ≤ daysInMonth dt.year dt.month ∧
      dt.second ≤ 59 ∧ offsetOk dt.tzOffsetUs = true then
    some (renderIso dt.year dt.month dt.day dt.hour dt.minute dt.second dt.us
      (dt.tzOffsetUs.getD 0))
  else none

/-- Try the fixed formats in order; the first format that both matches and
validates wins, exactly as the `for fmt in formats` loop with its
`except ValueError: continue`. -/
def firstParse : List (Parser ParsedDT) → List Char → Option String
  | [], _ => none
  | p :: rest, cs =>
    match (runFormat p cs).bind validateParsed with
    | some out => some out
    | none => firstParse rest cs

/-- Days-to-civil-date conversion (proleptic Gregorian), day 0 being
1970-01-01. -/
def civilFromDays (z0 : Int) : Int × Nat × Nat :=
  let z : Int := z0 + 719468
  let era : Int := Int.fdiv z 146097
  let doe : Nat := (z - era * 146097).toNat
  let yoe : Nat := (doe - doe / 1460 + doe / 36524 - doe / 146096) / 365
  let y : Int := (yoe : Int) + era * 400
  let doy : Nat := doe - (365 * yoe + yoe / 4 - yoe / 100)
  let mp : Nat := (5 * doy + 2) / 153
  let d : Nat := doy - (153 * mp + 2) / 5 + 1
  let m : Nat := if mp < 10 then mp + 3 else mp - 9
  (if m ≤ 2 then y + 1 else y, m, d)

/-- The epoch seconds representable as `datetime` values of years 1-9999:
`datetime.fromtimestamp(t, tz=utc)` raises outside this range. -/
def epochInRange (t : Int) : Prop := -62135596800 ≤ t ∧ t ≤ 253402300799

instance (t : Int) : Decidable (epochInRange t) := by
  unfold epochInRange
  infer_instance

/-- Python `datetime.fromtimestamp(t, tz=timezone.utc).isoformat()` for an
integral second count plus a microsecond remainder in `[0, 10^6)`. -/
def epochIso (t : Int) (us : Nat) : Option String :=
  if epochInRange t then
    let sod : Nat := (Int.emod t 86400).toNat
    let ymd := civilFromDays (Int.fdiv t 86400)
    some (renderIso ymd.1.toNat ymd.2.1 ymd.2.2 (sod / 3600) (sod % 3600 / 60) (sod % 60) us 0)
  else none

/-- Round half to even of `num / den` for positive `den`, as Python
`round`. -/
def rheDiv (num den : Int) : Int :=
  let f := Int.fdiv num den
  let r := num - f * den
  if 2 * r < den then f
  else if den < 2 * r then f + 1
  else if f % 2 = 0 then f else f + 1

/-- Embedding of `parse_timestamp` (`app/utils.py` lines 29-56).
`isinstance(value, (int, float))` is true for Python booleans, so they
take the numeric-epoch path; the float path mirrors
`_fromtimestamp`: split off the fraction with `modf` (truncation toward
zero), round it to microseconds half-to-even, and carry into the seconds
on overflow. -/
def parse_timestamp : JVal → Option String
  | .null => none
  | .bool b => epochIso (if b then 1 else 0) 0
  | .int n => epochIso n 0
  | .float m e =>
    let den : Int := 10 ^ e
    let t0 := Int.tdiv m den
    let usInt := rheDiv ((m - t0 * den) * 1000000) den
    let adj : Int × Int :=
      if 1000000 ≤ usInt then (t0 + 1, usInt - 1000000)
      else if usInt < 0 then (t0 - 1, usInt + 1000000)
      else (t0, usInt)
    epochIso adj.1 adj.2.toNat
  | .str s => firstParse timestampFormats (stripChars s).data
  | .arr _ => none
  | .obj _ => none

/-! ### Field utilities (`app/utils.py`) -/

/-- Test for the Python `None` object (absent key or JSON null). -/
def isNull : JVal → Bool
  | .null => true
  | _ => false

/-- The fixed severity table `SEVERITY_MAP`. -/
def SEVERITY_MAP : List (String × String) := [
  ("1", "low"), ("2", "moderate"), ("3", "considerable"), ("4", "high"), ("5", "extreme"),
  ("low", "low"), ("moderate", "moderate"), ("considerable", "considerable"),
  ("high", "high"), ("extreme", "extreme"), ("no rating", "unknown"), ("none", "unknown")]

/-- First-match lookup in a string table (`dict.get` with default). -/
def lookupStr : List (String × String) → String → Option String
  | [], _ => none
  | (k, v) :: rest, key => if k = key then some v else lookupStr rest key

/-- Embedding of `normalize_severity`: `None` maps to `unknown`; otherwise
strip, lower-case and look up, defaulting to `unknown`. -/
def normalize_severity : Option String → String
  | none => "unknown"
  | some value => (lookupStr SEVERITY_MAP (lowerStr (stripChars value))).getD "unknown"

/-- Embedding of `safe_str`: `None` becomes the empty string, anything else
is stringified and stripped. -/
def safe_str : JVal → String
  | .null => ""
  | v => stripChars (pyStr v)

/-- Embedding of `extract_coordinates`: top-level `lat or latitude` and
`lon or longitude` first; only when both of those chains produced `None`
is a nested `location or coordinates` mapping consulted; each selected
value is then independently coerced with `float(...)` under
`except (ValueError, TypeError)`. -/
def extract_coordinates (payload : Obj) : Option (Int × Nat) × Option (Int × Nat) :=
  let lat0 := pyOr (dictGet payload "lat") (dictGet payload "latitude")
  let lon0 := pyOr (dictGet payload "lon") (dictGet payload "longitude")
  let pair : JVal × JVal :=
    if isNull lat0 && isNull lon0 then
      match pyOr (dictGet payload "location") (dictGet payload "coordinates") with
      | .obj entries =>
        (pyOr (dictGet entries "lat") (dictGet entries "latitude"),
         pyOr (dictGet entries "lon") (dictGet entries "longitude"))
      | _ => (lat0, lon0)
    else (lat0, lon0)
  (pyFloat pair.1, pyFloat pair.2)

/-- Python `isinstance(v, (int, float, str, bool, type(None)))`. -/
def isScalarVal : JVal → Bool
  | .arr _ => false
  | .obj _ => false
  | _ => true

/-- Embedding of `validate_metrics`: non-scalar values are dropped and each
occurrence appends one `invalid_metric_type` flag; accepted values pass
through unchanged, in iteration order. -/
def validate_metrics (metrics : Obj) : Obj × List String :=
  metrics.foldl
    (fun acc kv =>
      if isScalarVal kv.2 then (acc.1 ++ [kv], acc.2)
      else (acc.1, acc.2 ++ ["invalid_metric_type"]))
    ([], [])

/-! ### Normalizers (`app/normalizers.py`) -/

/-- The location sub-record of a canonical fragment. -/
structure Location where
  name : Option String
  lat : Option (Int × Nat)
  lon : Option (Int × Nat)
  elevation_ft : Option Int
  deriving Repr, DecidableEq

/-- Embedding of `_build_location`.  The nested block is
`payload.get("location") or payload.get("coordinates") or` the empty dict;
a name and an elevation candidate are read from it only when it is a
mapping; the top-level `elevation_ft or elevation` chain is consulted only
when the nested chain produced `None`; the final value goes through
`int(...)` under `except (ValueError, TypeError)`. -/
def _build_location (payload : Obj) : Location :=
  let coords := extract_coordinates payload
  let loc_block := pyOr (dictGet payload "location") (pyOr (dictGet payload "coordinates") (.obj []))
  let fromBlock : Option String × JVal :=
    match loc_block with
    | .obj entries =>
      (let n := safe_str (dictGet entries "name")
       if n = "" then none else some n,
       pyOr (dictGet entries "elevation_ft") (dictGet entries "elevation"))
    | _ => (none, .null)
  let loc_name : Option String :=
    match fromBlock.1 with
    | some n => some n
    | none =>
      let n := safe_str (dictGet payload "location_name")
      if n = "" then none else some n
  let elevRaw : JVal :=
    if isNull fromBlock.2 then pyOr (dictGet payload "elevation_ft") (dictGet payload "elevation")
    else fromBlock.2
  Location.mk loc_name coords.1 coords.2 (pyInt elevRaw)

/-- Python falsiness of `record.get("event_time")`: `None` or empty. -/
def strOptFalsy : Option String → Bool
  | none => true
  | some s => s = ""

/-- Embedding of `_collect_quality_flags`, applied to the already-built
record fields, in the fixed source order. -/
def _collect_quality_flags (loc : Location) (event_time : Option String)
    (severity : String) (summary : String) : List String :=
  (if loc.lat = none ∨ loc.lon = none then ["missing_coordinates"] else []) ++
    (if strOptFalsy event_time then ["missing_timestamp"] else []) ++
    (if severity = "unknown" then ["unknown_severity"] else []) ++
    (if stripChars summary = "" then ["empty_summary"] else [])

/-- Python `list(dict.fromkeys(flags))` via the set of already-seen keys:
deduplicate preserving the first occurrence. -/
def dedupFirstAux : List String → List String → List String
  | _, [] => []
  | seen, x :: xs =>
    if x ∈ seen then dedupFirstAux seen xs else x :: dedupFirstAux (x :: seen) xs

/-- Deduplication entry point. -/
def dedupFirst (l : List String) : List String := dedupFirstAux [] l

/-- Canonical record fragment produced by a normalizer (the dict returned
by the `normalize_*` functions, minus the persistence-assigned fields). -/
structure Fragment where
  provider_id : String
  provider_name : String
  record_type : String
  region : Option String
  location : Location
  event_time : Option String
  severity : String
  metrics : Obj
  summary : String
  quality_flags : List String

/-- Provider metadata dict built by the request boundary: both fields are
validated strings. -/
structure ProviderMeta where
  provider_id : String
  provider_name : String

/-- Per-type configuration: the ordered candidate-key lists and overlay
metric keys of one normalizer.  The three normalizers share one shape and
differ only in these tables. -/
structure NormalizerConfig where
  record_type : String
  severityKeys : List String
  timeKeys : List String
  summaryKeys : List String
  regionKeys : List String
  metricKeys : List String

/-- Key tables of `normalize_bulletin`. -/
def bulletinConfig : NormalizerConfig :=
  NormalizerConfig.mk "bulletin"
    ["danger", "avalanche_danger", "severity", "danger_level"]
    ["issued_at", "timestamp", "valid_time", "date"]
    ["summary", "headline", "description", "text"]
    ["region", "zone", "area"]
    ["rose", "aspects", "elevation_bands", "travel_advice"]

/-- Key tables of `normalize_observation`. -/
def observationConfig : NormalizerConfig :=
  NormalizerConfig.mk "observation"
    ["severity", "danger", "hazard_level", "risk"]
    ["observed_at", "timestamp", "date", "time"]
    ["summary", "notes", "description", "observation"]
    ["region", "zone", "area"]
    ["snow_depth_cm", "new_snow_cm", "wind_speed_mph", "temperature_f", "aspect", "slope_angle"]

/-- Key tables of `normalize_weather`. -/
def weatherConfig : NormalizerConfig :=
  NormalizerConfig.mk "weather"
    ["severity", "alert_level", "warning_level"]
    ["recorded_at", "timestamp", "observation_time", "time", "date"]
    ["summary", "conditions", "description"]
    ["region", "zone", "station_region"]
    ["temperature_f", "temperature_c", "wind_speed_mph", "wind_gust_mph",
     "wind_direction", "relative_humidity", "snow_depth_cm", "new_snow_cm",
     "pressure_mb", "visibility_miles"]

/-- Starting metrics mapping: `payload.get("metrics") or` the empty dict,
reset to empty when not a mapping.  When the payload holds a non-empty
`metrics` mapping this is the very object stored in the payload, not a
copy. -/
def baseMetrics (payload : Obj) : Obj :=
  match pyOr (dictGet payload "metrics") (.obj []) with
  | .obj entries => entries
  | _ => []

/-- The overlay loop: for each type-specific key in order, when
`payload.get(key) is not None` write it into the metrics dict. -/
def overlayMetrics (base : Obj) (payload : Obj) (keys : List String) : Obj :=
  keys.foldl
    (fun m k =>
      if isNull (dictGet payload k) then m else dictSet m k (dictGet payload k))
    base

/-- Shared body of the three `normalize_*` functions, parameterized by the
per-type key tables; a line-by-line transcription of `normalize_bulletin`
(the other two differ only in the tables). -/
def normalizeWith (cfg : NormalizerConfig) (payload : Obj) (meta : ProviderMeta) : Fragment :=
  let raw_severity := orChain payload cfg.severityKeys
  let raw_time := orChain payload cfg.timeKeys
  let summary := safe_str (pyOr (orChain payload cfg.summaryKeys) (.str ""))
  let regionStr := safe_str (pyOr (orChain payload cfg.regionKeys) (.str ""))
  let region := if regionStr = "" then none else some regionStr
  let vm := validate_metrics (overlayMetrics (baseMetrics payload) payload cfg.metricKeys)
  let location := _build_location payload
  let event_time := parse_timestamp raw_time
  let severity := normalize_severity (if isNull raw_severity then none else some (pyStr raw_severity))
  let flags := _collect_quality_flags location event_time severity summary ++ vm.2
  Fragment.mk (stripChars meta.provider_id) (stripChars meta.provider_name)
    cfg.record_type region location event_time severity vm.1 summary (dedupFirst flags)

/-- Embedding of `normalize_bulletin`. -/
def normalize_bulletin (payload : Obj) (meta : ProviderMeta) : Fragment :=
  normalizeWith bulletinConfig payload meta

/-- Embedding of `normalize_observation`. -/
def normalize_observation (payload : Obj) (meta : ProviderMeta) : Fragment :=
  normalizeWith observationConfig payload meta

/-- Embedding of `normalize_weather`. -/
def normalize_weather (payload : Obj) (meta : ProviderMeta) : Fragment :=
  normalizeWith weatherConfig payload meta

/-- The single error kind of the core: the `ValueError` raised by
`dispatch_normalizer`, carrying the offending type and
`list(NORMALIZERS)`. -/
inductive NormalizeError where
  | unsupportedRecordType (given : String) (supported : List String)
  deriving Repr, DecidableEq

/-- Keys of the `NORMALIZERS` dict, in insertion order. -/
def supportedRecordTypes : List String := ["bulletin", "observation", "weather"]

/-- Embedding of `dispatch_normalizer`: look the type up among the three
normalizers, raising `UnsupportedRecordType` on a miss. -/
def dispatch_normalizer (record_type : String) (payload : Obj) (meta : ProviderMeta) :
    Except NormalizeError Fragment :=
  if record_type = "bulletin" then .ok (normalize_bulletin payload meta)
  else if record_type = "observation" then .ok (normalize_observation payload meta)
  else if record_type = "weather" then .ok (normalize_weather payload meta)
  else .error (.unsupportedRecordType record_type supportedRecordTypes)

/-! ### Request boundary (`app/routes.py`)

Identifier generation, clock reads and the database session are external
collaborators; what is embedded is the data flow the claims are about: the
payload object that `json.dumps(req.payload)` serializes after
`dispatch_normalizer` has run, and the per-item batch loop. -/

/-- State of the caller payload object after a normalizer ran on it.
Binding `raw_metrics` to `payload.get("metrics") or` the empty dict
aliases the very dict stored in the payload whenever that value is a
non-empty mapping, so the overlay loop writes through to it; in every
other case the loop mutates a fresh dict and the payload is untouched. -/
def payloadAfterNormalize (cfg : NormalizerConfig) (payload : Obj) : Obj :=
  match dictGet payload "metrics" with
  | .obj entries =>
    if entries.isEmpty then payload
    else dictSet payload "metrics" (.obj (overlayMetrics entries payload cfg.metricKeys))
  | _ => payload

/-- Payload state after `dispatch_normalizer`; an unsupported type raises
before any normalizer runs, leaving the payload untouched. -/
def payloadAfterDispatch (record_type : String) (payload : Obj) : Obj :=
  if record_type = "bulletin" then payloadAfterNormalize bulletinConfig payload
  else if record_type = "observation" then payloadAfterNormalize observationConfig payload
  else if record_type = "weather" then payloadAfterNormalize weatherConfig payload
  else payload

/-- The string stored as `raw_payload_json` by `_process_ingest`:
`json.dumps(req.payload)` evaluated after normalization. -/
def persistedRawPayloadJson (record_type : String) (payload : Obj) : String :=
  jsonDumps (.obj (payloadAfterDispatch record_type payload))

/-- One entry of a batch ingest request. -/
structure IngestItem where
  provider_id : String
  provider_name : String
  record_type : String
  payload : Obj

/-- Core data flow of `_process_ingest`: build the provider metadata dict
and dispatch.  A `ValueError` surfaces as the error case. -/
def _process_ingest (item : IngestItem) : Except NormalizeError Fragment :=
  dispatch_normalizer item.record_type item.payload
    (ProviderMeta.mk item.provider_id item.provider_name)

/-- Counts and per-item results of the batch response. -/
structure BatchIngestSummary where
  total_count : Nat
  success_count : Nat
  failed_count : Nat
  results : List (Except NormalizeError Fragment)

/-- Success test of one batch entry. -/
def isOkResult : Except NormalizeError Fragment → Bool
  | .ok _ => true
  | .error _ => false

/-- Embedding of `ingest_batch`: process every item independently in
order, catching per-item failures, and report the totals. -/
def ingest_batch (items : List IngestItem) : BatchIngestSummary :=
  let results := items.map _process_ingest
  BatchIngestSummary.mk items.length (results.filter isOkResult).length
    (items.length - (results.filter isOkResult).length) results

/-! ### Derived definitions used by the statements below -/

/-- The four base quality flags in their fixed emission order. -/
def qualityFlagOrder : List String :=
  ["missing_coordinates", "missing_timestamp", "unknown_severity", "empty_summary"]

/-- The condition under which each base quality flag applies, read off the
built record fields. -/
def qualityConditionHolds (loc : Location) (event_time : Option String)
    (severity : String) (summary : String) : String → Bool
  | "missing_coordinates" => loc.lat.isNone || loc.lon.isNone
  | "missing_timestamp" => strOptFalsy event_time
  | "unknown_severity" => severity == "unknown"
  | "empty_summary" => stripChars summary == ""
  | _ => false

/-- The canonical severity scale plus `unknown`. -/
def severityLevels : List String :=
  ["low", "moderate", "considerable", "high", "extreme", "unknown"]

/-- The nested-block elevation chain of `_build_location`:
`loc_block.get("elevation_ft") or loc_block.get("elevation")` when the
block is a mapping, else `None`. -/
def nestedElevChain (payload : Obj) : JVal :=
  match pyOr (dictGet payload "location") (pyOr (dictGet payload "coordinates") (.obj [])) with
  | .obj entries => pyOr (dictGet entries "elevation_ft") (dictGet entries "elevation")
  | _ => .null

/-- First truthy value of a candidate list, null when none is truthy. -/
def firstTruthyVal : List JVal → JVal
  | [] => .null
  | v :: rest => if truthy v then v else firstTruthyVal rest

/-- Elevation candidate order asserted by claim C10, stated from the
words of the claim itself for comparison against `_build_location` (which behaves
differently): the first truthy value among the nested block entries
`elevation_ft`, `elevation` and then the top-level `elevation_ft`,
`elevation`. -/
def claimElevationCandidate (payload : Obj) : JVal :=
  let block := pyOr (dictGet payload "location") (pyOr (dictGet payload "coordinates") (.obj []))
  let nested : List JVal :=
    match block with
    | .obj entries => [dictGet entries "elevation_ft", dictGet entries "elevation"]
    | _ => []
  firstTruthyVal (nested ++ [dictGet payload "elevation_ft", dictGet payload "elevation"])

/-- Provider metadata used by the concrete evaluations. -/
def metaT : ProviderMeta := ProviderMeta.mk "test-provider" "Test Provider"

/-- Failing input of claim C1: a payload whose nested `metrics` mapping
coexists with the top-level bulletin metric key `rose`. -/
def c1Payload : Obj := [("metrics", .obj [("a", .int 1)]), ("rose", .int 2)]

/-- The same payload after `normalize_bulletin` ran: the overlay wrote
through the alias into the nested mapping. -/
def c1PayloadMutated : Obj := [("metrics", .obj [("a", .int 1), ("rose", .int 2)]), ("rose", .int 2)]

/-- Counterexample input of claim C7: the overlay key `rose` is present in
the payload, with a null value. -/
def c7Payload : Obj := [("metrics", .obj [("rose", .int 1)]), ("rose", .null)]

/-- Counterexample input of claim C10: the nested elevation chain yields
the falsy, non-null empty string while a truthy top-level candidate
exists. -/
def c10Payload : Obj := [("location", .obj [("elevation", .str "")]), ("elevation", .int 100)]

/-- Valid bulletin item for the batch witness. -/
def itemA : IngestItem := IngestItem.mk "prov-001" "Provider A" "bulletin"
  [("danger", .str "high"), ("issued_at", .str "2024-01-15T12:00:00Z"), ("summary", .str "Test")]

/-- Invalid item for the batch witness. -/
def itemBad : IngestItem := IngestItem.mk "prov-bad" "Bad Provider" "invalid_type" []

/-- Valid weather item for the batch witness. -/
def itemC : IngestItem := IngestItem.mk "prov-002" "Provider B" "weather"
  [("recorded_at", .str "2024-01-16T08:00:00Z"), ("conditions", .str "Clear")]

/-! ### Helper lemmas -/

theorem mem_dedupFirstAux (x : String) :
    ∀ (l seen : List String), x ∈ dedupFirstAux seen l ↔ x ∈ l ∧ x ∉ seen := by
  intro l
  induction l with
  | nil => intro seen; simp [dedupFirstAux]
  | cons y ys ih =>
    intro seen
    by_cases hy : y ∈ seen
    · rw [show dedupFirstAux seen (y :: ys) = dedupFirstAux seen ys from by
        simp [dedupFirstAux, hy]]
      rw [ih]
      constructor
      · rintro ⟨h1, h2⟩
        exact ⟨List.mem_cons_of_mem y h1, h2⟩
      · rintro ⟨h1, h2⟩
        rcases List.mem_cons.mp h1 with h1 | h1
        · subst h1; exact absurd hy h2
        · exact ⟨h1, h2⟩
    · rw [show dedupFirstAux seen (y :: ys) = y :: dedupFirstAux (y :: seen) ys from by
        simp [dedupFirstAux, hy]]
      by_cases hxy : x = y
      · subst hxy
        simp [List.mem_cons, hy]
      · simp [List.mem_cons, hxy, ih, not_or]

theorem nodup_dedupFirstAux : ∀ (l seen : List String), (dedupFirstAux seen l).Nodup := by
  intro l
  induction l with
  | nil => intro seen; simp [dedupFirstAux]
  | cons y ys ih =>
    intro seen
    by_cases hy : y ∈ seen
    · simpa [dedupFirstAux, hy] using ih seen
    · rw [show dedupFirstAux seen (y :: ys) = y :: dedupFirstAux (y :: seen) ys from by
        simp [dedupFirstAux, hy]]
      refine List.nodup_cons.mpr ⟨fun hmem => ?_, ih (y :: seen)⟩
      exact ((mem_dedupFirstAux y ys (y :: seen)).mp hmem).2 (List.mem_cons_self y seen)

theorem mem_dedupFirst (x : String) (l : List String) : x ∈ dedupFirst l ↔ x ∈ l := by
  simp [dedupFirst, mem_dedupFirstAux]

theorem nodup_dedupFirst (l : List String) : (dedupFirst l).Nodup :=
  nodup_dedupFirstAux l []

theorem validate_metrics_foldl (ms : Obj) : ∀ (acc : Obj × List String),
    ms.foldl
      (fun acc kv =>
        if isScalarVal kv.2 then (acc.1 ++ [kv], acc.2)
        else (acc.1, acc.2 ++ ["invalid_metric_type"])) acc =
    (acc.1 ++ ms.filter (fun kv => isScalarVal kv.2),
     acc.2 ++ (ms.filter (fun kv => !isScalarVal kv.2)).map (fun _ => "invalid_metric_type")) := by
  induction ms with
  | nil => intro acc; simp
  | cons kv rest ih =>
    intro acc
    by_cases h : isScalarVal kv.2
    · simp [List.foldl_cons, h, ih, List.filter_cons]
    · simp [List.foldl_cons, h, ih, List.filter_cons]

theorem validate_metrics_eq (ms : Obj) :
    validate_metrics ms =
      (ms.filter (fun kv => isScalarVal kv.2),
       (ms.filter (fun kv => !isScalarVal kv.2)).map (fun _ => "invalid_metric_type")) := by
  simpa [validate_metrics] using validate_metrics_foldl ms ([], [])

theorem validate_metrics_flag_eq (ms : Obj) (f : String) (h : f ∈ (validate_metrics ms).2) :
    f = "invalid_metric_type" := by
  rw [validate_metrics_eq] at h
  obtain ⟨kv, hkv, heq⟩ := List.mem_map.mp h
  exact heq.symm

theorem validate_metrics_values_scalar (ms : Obj) (kv : String × JVal)
    (h : kv ∈ (validate_metrics ms).1) : isScalarVal kv.2 = true := by
  rw [validate_metrics_eq] at h
  exact (List.mem_filter.mp h).2

theorem collect_quality_flags_eq_filter (loc : Location) (et : Option String)
    (sev su : String) :
    _collect_quality_flags loc et sev su =
      qualityFlagOrder.filter (qualityConditionHolds loc et sev su) := by
  have e1 : qualityConditionHolds loc et sev su "missing_coordinates" =
      (loc.lat.isNone || loc.lon.isNone) := rfl
  have e2 : qualityConditionHolds loc et sev su "missing_timestamp" = strOptFalsy et := rfl
  have e3 : qualityConditionHolds loc et sev su "unknown_severity" = (sev == "unknown") := rfl
  have e4 : qualityConditionHolds loc et sev su "empty_summary" = (stripChars su == "") := rfl
  rw [show qualityFlagOrder =
    ["missing_coordinates", "missing_timestamp", "unknown_severity", "empty_summary"] from rfl]
  simp only [List.filter_cons, List.filter_nil, e1, e2, e3, e4]
  by_cases h1 : loc.lat = none ∨ loc.lon = none <;>
    by_cases h2 : strOptFalsy et = true <;>
    by_cases h3 : sev = "unknown" <;>
    by_cases h4 : stripChars su = "" <;>
    simp [_collect_quality_flags, h1, h2, h3, h4, Option.isNone_iff_eq_none,
      Bool.or_eq_true, not_or, beq_iff_eq]

theorem dictGet_dictSet_self (m : Obj) (k : String) (v : JVal) :
    dictGet (dictSet m k v) k = v := by
  induction m with
  | nil => simp [dictSet, dictGet]
  | cons kv rest ih =>
    by_cases h : kv.1 = k
    · simp [dictSet, dictGet, h]
    · simp [dictSet, dictGet, h, ih]

theorem dictGet_dictSet_ne (m : Obj) (k k2 : String) (v : JVal) (h : k ≠ k2) :
    dictGet (dictSet m k v) k2 = dictGet m k2 := by
  induction m with
  | nil => simp [dictSet, dictGet, h]
  | cons kv rest ih =>
    by_cases hk : kv.1 = k
    · simp [dictSet, dictGet, hk, h]
    · simp [dictSet, dictGet, hk, ih]

theorem overlayMetrics_cons (base : Obj) (p : Obj) (k : String) (keys : List String) :
    overlayMetrics base p (k :: keys) =
      overlayMetrics
        (if isNull (dictGet p k) then base else dictSet base k (dictGet p k)) p keys := rfl

theorem overlayMetrics_get_not_mem (p : Obj) (keys : List String) (k : String)
    (h : k ∉ keys) : ∀ base : Obj, dictGet (overlayMetrics base p keys) k = dictGet base k := by
  induction keys with
  | nil => intro base; rfl
  | cons k1 rest ih =>
    intro base
    have hne : k1 ≠ k := fun he => h (he ▸ List.mem_cons_self k1 rest)
    have hrest : k ∉ rest := fun hr => h (List.mem_cons_of_mem k1 hr)
    rw [overlayMetrics_cons, ih hrest]
    by_cases hn : isNull (dictGet p k1)
    · simp [hn]
    · simp [hn, dictGet_dictSet_ne _ _ _ _ hne]

theorem overlayMetrics_get_mem (p : Obj) (keys : List String) (k : String)
    (hmem : k ∈ keys) (hnn : isNull (dictGet p k) = false) :
    ∀ base : Obj, dictGet (overlayMetrics base p keys) k = dictGet p k := by
  induction keys with
  | nil => cases hmem
  | cons k1 rest ih =>
    intro base
    by_cases hk : k ∈ rest
    · rw [overlayMetrics_cons]
      exact ih hk _
    · have hkk : k = k1 := by
        rcases List.mem_cons.mp hmem with h | h
        · exact h
        · exact absurd h hk
      subst hkk
      rw [overlayMetrics_cons, hnn]
      simp only [Bool.false_eq_true, if_false]
      rw [overlayMetrics_get_not_mem p rest k hk]
      exact dictGet_dictSet_self base k (dictGet p k)

theorem dictGet_filter_scalar (l : Obj) (k : String)
    (h : isScalarVal (dictGet l k) = true) :
    dictGet (l.filter (fun kv => isScalarVal kv.2)) k = dictGet l k := by
  induction l with
  | nil => simp
  | cons kv rest ih =>
    obtain ⟨k1, v1⟩ := kv
    by_cases hk : k1 = k
    · have hv1 : isScalarVal v1 = true := by simpa [dictGet, hk] using h
      simp [List.filter_cons, hv1, dictGet, hk]
    · have h2 : isScalarVal (dictGet rest k) = true := by simpa [dictGet, hk] using h
      by_cases hs : isScalarVal v1 = true
      · simp [List.filter_cons, hs, dictGet, hk, ih h2]
      · simp [List.filter_cons, hs, ih h2, dictGet, hk]

theorem string_append_eq_empty_iff (a b : String) : a ++ b = "" ↔ a = "" ∧ b = "" := by
  cases a with
  | mk da =>
    cases b with
    | mk db =>
      constructor
      · intro h
        have hd : da ++ db = [] := congrArg String.data h
        rcases List.append_eq_nil.mp hd with ⟨h1, h2⟩
        exact ⟨congrArg String.mk h1, congrArg String.mk h2⟩
      · rintro ⟨h1, h2⟩
        have hd1 : da = [] := congrArg String.data h1
        have hd2 : db = [] := congrArg String.data h2
        subst hd1; subst hd2; rfl

theorem renderOffset_ne_empty (offUs : Int) : renderOffset offUs ≠ "" := by
  intro h
  simp only [renderOffset] at h
  have h1 := ((string_append_eq_empty_iff _ _).mp h).1
  have h2 := ((string_append_eq_empty_iff _ _).mp h1).1
  have h3 := ((string_append_eq_empty_iff _ _).mp h2).1
  have h4 := ((string_append_eq_empty_iff _ _).mp h3).1
  by_cases hs : offUs < 0 <;> simp [hs] at h4

theorem renderIso_ne_empty (year mo d h mi s us : Nat) (offUs : Int) :
    renderIso year mo d h mi s us offUs ≠ "" := by
  intro he
  exact renderOffset_ne_empty offUs ((string_append_eq_empty_iff _ _).mp he).2

theorem validateParsed_some_shape (dt : ParsedDT) (out : String)
    (h : validateParsed dt = some out) :
    out = renderIsoBody dt.year dt.month dt.day dt.hour dt.minute dt.second dt.us ++
      renderOffset (dt.tzOffsetUs.getD 0) := by
  unfold validateParsed at h
  split at h
  · exact (Option.some.inj h).symm
  · exact Option.noConfusion h

theorem epochIso_some_shape (t : Int) (us : Nat) (out : String)
    (h : epochIso t us = some out) :
    ∃ year mo d hh mi s, out = renderIsoBody year mo d hh mi s us ++ renderOffset 0 := by
  unfold epochIso at h
  split at h
  · exact ⟨_, _, _, _, _, _, (Option.some.inj h).symm⟩
  · exact Option.noConfusion h

theorem firstParse_some_shape (cs : List Char) (out : String) :
    ∀ fs : List (Parser ParsedDT), firstParse fs cs = some out →
      ∃ dt, validateParsed dt = some out := by
  intro fs
  induction fs with
  | nil => intro h; exact Option.noConfusion h
  | cons p rest ih =>
    intro h
    unfold firstParse at h
    split at h
    · rename_i out2 heq
      rcases Option.bind_eq_some.mp heq with ⟨dt, _, hval⟩
      exact ⟨dt, by rw [hval, Option.some.inj h]⟩
    · exact ih h

theorem parse_timestamp_some_shape (v : JVal) (out : String)
    (h : parse_timestamp v = some out) :
    ∃ pre off, out = pre ++ renderOffset off := by
  cases v with
  | null => exact Option.noConfusion h
  | bool b =>
    rcases epochIso_some_shape _ _ _ h with ⟨y, mo, d, hh, mi, s, hout⟩
    exact ⟨_, _, hout⟩
  | int n =>
    rcases epochIso_some_shape _ _ _ h with ⟨y, mo, d, hh, mi, s, hout⟩
    exact ⟨_, _, hout⟩
  | float m e =>
    simp only [parse_timestamp] at h
    rcases epochIso_some_shape _ _ _ h with ⟨y, mo, d, hh, mi, s, hout⟩
    exact ⟨_, _, hout⟩
  | str s =>
    rcases firstParse_some_shape _ _ _ h with ⟨dt, hval⟩
    exact ⟨_, _, validateParsed_some_shape dt out hval⟩
  | arr elems => exact Option.noConfusion h
  | obj entries => exact Option.noConfusion h

theorem parse_timestamp_ne_some_empty (v : JVal) : parse_timestamp v ≠ some "" := by
  intro h
  rcases parse_timestamp_some_shape v "" h with ⟨pre, off, hout⟩
  exact renderOffset_ne_empty off ((string_append_eq_empty_iff _ _).mp hout.symm).2

theorem strOptFalsy_parse_timestamp (v : JVal) :
    strOptFalsy (parse_timestamp v) = true ↔ parse_timestamp v = none := by
  cases h : parse_timestamp v with
  | none => simp [strOptFalsy]
  | some s =>
    simp only [strOptFalsy]
    constructor
    · intro he
      exact absurd (by rw [h, show s = "" from by simpa using he]) (parse_timestamp_ne_some_empty v)
    · intro he; exact Option.noConfusion he

theorem lookupStr_mem_snd : ∀ (tbl : List (String × String)) (k v : String),
    lookupStr tbl k = some v → v ∈ tbl.map Prod.snd := by
  intro tbl
  induction tbl with
  | nil => intro k v h; exact Option.noConfusion h
  | cons kv rest ih =>
    intro k v h
    unfold lookupStr at h
    split at h
    · simp [Option.some.inj h]
    · exact List.mem_cons_of_mem _ (ih k v h)

theorem normalize_severity_mem (v : Option String) : normalize_severity v ∈ severityLevels := by
  cases v with
  | none => simp [normalize_severity, severityLevels]
  | some s =>
    simp only [normalize_severity]
    cases h : lookupStr SEVERITY_MAP (lowerStr (stripChars s)) with
    | none => simp [severityLevels]
    | some x =>
      have hmem := lookupStr_mem_snd _ _ _ h
      simp only [SEVERITY_MAP, List.map_cons, List.map_nil, List.mem_cons, List.not_mem_nil,
        or_false] at hmem
      simp only [Option.getD_some]
      rcases hmem with rfl | rfl | rfl | rfl | rfl | rfl | rfl | rfl | rfl | rfl | rfl | rfl <;>
        simp [severityLevels]

theorem normalizeWith_record_type (cfg : NormalizerConfig) (p : Obj) (m : ProviderMeta) :
    (normalizeWith cfg p m).record_type = cfg.record_type := rfl

theorem normalizeWith_location (cfg : NormalizerConfig) (p : Obj) (m : ProviderMeta) :
    (normalizeWith cfg p m).location = _build_location p := rfl

theorem normalizeWith_event_time (cfg : NormalizerConfig) (p : Obj) (m : ProviderMeta) :
    (normalizeWith cfg p m).event_time = parse_timestamp (orChain p cfg.timeKeys) := rfl

theorem normalizeWith_metrics (cfg : NormalizerConfig) (p : Obj) (m : ProviderMeta) :
    (normalizeWith cfg p m).metrics =
      (validate_metrics (overlayMetrics (baseMetrics p) p cfg.metricKeys)).1 := rfl

theorem normalizeWith_severity (cfg : NormalizerConfig) (p : Obj) (m : ProviderMeta) :
    (normalizeWith cfg p m).severity =
      normalize_severity
        (if isNull (orChain p cfg.severityKeys) then none
         else some (pyStr (orChain p cfg.severityKeys))) := rfl

theorem normalizeWith_quality_flags (cfg : NormalizerConfig) (p : Obj) (m : ProviderMeta) :
    (normalizeWith cfg p m).quality_flags =
      dedupFirst
        (_collect_quality_flags (normalizeWith cfg p m).location
            (normalizeWith cfg p m).event_time (normalizeWith cfg p m).severity
            (normalizeWith cfg p m).summary ++
          (validate_metrics (overlayMetrics (baseMetrics p) p cfg.metricKeys)).2) := rfl

theorem dispatch_unsupported (rt : String) (p : Obj) (m : ProviderMeta)
    (h : rt ∉ supportedRecordTypes) :
    dispatch_normalizer rt p m = .error (.unsupportedRecordType rt supportedRecordTypes) := by
  simp only [supportedRecordTypes, List.mem_cons, List.not_mem_nil, or_false, not_or] at h
  obtain ⟨h1, h2, h3⟩ := h
  simp [dispatch_normalizer, h1, h2, h3]

theorem dispatch_ok_iff (rt : String) (p : Obj) (m : ProviderMeta) :
    (∃ r, dispatch_normalizer rt p m = .ok r) ↔ rt ∈ supportedRecordTypes := by
  constructor
  · rintro ⟨r, hr⟩
    by_contra hmem
    rw [dispatch_unsupported rt p m hmem] at hr
    exact Except.noConfusion hr
  · intro hmem
    simp only [supportedRecordTypes, List.mem_cons, List.not_mem_nil, or_false] at hmem
    rcases hmem with rfl | rfl | rfl
    · exact ⟨_, rfl⟩
    · exact ⟨_, rfl⟩
    · exact ⟨_, rfl⟩

theorem dispatch_error_shape (rt : String) (p : Obj) (m : ProviderMeta) (e : NormalizeError)
    (h : dispatch_normalizer rt p m = .error e) :
    rt ∉ supportedRecordTypes ∧ e = .unsupportedRecordType rt supportedRecordTypes := by
  by_cases hmem : rt ∈ supportedRecordTypes
  · exfalso
    simp only [supportedRecordTypes, List.mem_cons, List.not_mem_nil, or_false] at hmem
    rcases hmem with rfl | rfl | rfl <;> exact Except.noConfusion (h.symm.trans rfl)
  · rw [dispatch_unsupported rt p m hmem] at h
    exact ⟨hmem, (Except.error.inj h).symm⟩

theorem dispatch_ok_record_type (rt : String) (p : Obj) (m : ProviderMeta) (r : Fragment)
    (h : dispatch_normalizer rt p m = .ok r) : r.record_type = rt := by
  unfold dispatch_normalizer at h
  split at h
  · rename_i hb
    rw [← Except.ok.inj h, hb]
    rfl
  · split at h
    · rename_i ho
      rw [← Except.ok.inj h, ho]
      rfl
    · split at h
      · rename_i hw
        rw [← Except.ok.inj h, hw]
        rfl
      · exact Except.noConfusion h

theorem processIngest_unsupported (it : IngestItem) (h : it.record_type ∉ supportedRecordTypes) :
    _process_ingest it = .error (.unsupportedRecordType it.record_type supportedRecordTypes) :=
  dispatch_unsupported it.record_type it.payload _ h

theorem isOk_processIngest_iff (it : IngestItem) :
    isOkResult (_process_ingest it) = true ↔ it.record_type ∈ supportedRecordTypes := by
  constructor
  · intro h
    by_contra hm
    rw [processIngest_unsupported it hm] at h
    exact Bool.noConfusion h
  · intro hm
    obtain ⟨r, hr⟩ := (dispatch_ok_iff it.record_type it.payload
      (ProviderMeta.mk it.provider_id it.provider_name)).mpr hm
    unfold _process_ingest
    rw [hr]
    rfl

theorem isNull_eq_false_of_truthy (v : JVal) (h : truthy v = true) : isNull v = false := by
  cases v <;> simp_all [truthy, isNull]

theorem c1_json_after :
    jsonDumps (.obj c1PayloadMutated) =
      "\x7b\"metrics\": \x7b\"a\": 1, \"rose\": 2\x7d, \"rose\": 2\x7d" := by
  simp only [c1PayloadMutated, jsonDumps, joinComma, List.attach_cons, List.attach_nil,
    List.map_cons, List.map_nil]
  rfl

theorem c1_json_before :
    jsonDumps (.obj c1Payload) = "\x7b\"metrics\": \x7b\"a\": 1\x7d, \"rose\": 2\x7d" := by
  simp only [c1Payload, jsonDumps, joinComma, List.attach_cons, List.attach_nil,
    List.map_cons, List.map_nil]
  rfl

theorem mem_missing_timestamp_iff (cfg : NormalizerConfig) (p : Obj) (m : ProviderMeta) :
    "missing_timestamp" ∈ (normalizeWith cfg p m).quality_flags ↔
      parse_timestamp (orChain p cfg.timeKeys) = none := by
  rw [normalizeWith_quality_flags, mem_dedupFirst, List.mem_append]
  have hq : qualityConditionHolds (normalizeWith cfg p m).location
      (normalizeWith cfg p m).event_time (normalizeWith cfg p m).severity
      (normalizeWith cfg p m).summary "missing_timestamp" =
      strOptFalsy (normalizeWith cfg p m).event_time := rfl
  constructor
  · rintro (h | h)
    · rw [collect_quality_flags_eq_filter] at h
      have hc := (List.mem_filter.mp h).2
      rw [hq, normalizeWith_event_time] at hc
      exact (strOptFalsy_parse_timestamp _).mp hc
    · exact absurd (validate_metrics_flag_eq _ _ h) (by decide)
  · intro h
    left
    rw [collect_quality_flags_eq_filter]
    refine List.mem_filter.mpr ⟨by decide, ?_⟩
    rw [hq, normalizeWith_event_time]
    exact (strOptFalsy_parse_timestamp _).mpr h

theorem normalizeWith_severity_mem (cfg : NormalizerConfig) (p : Obj) (m : ProviderMeta) :
    (normalizeWith cfg p m).severity ∈ severityLevels := by
  rw [normalizeWith_severity]
  exact normalize_severity_mem _

theorem normalizeWith_metrics_scalar (cfg : NormalizerConfig) (p : Obj) (m : ProviderMeta) :
    ∀ kv ∈ (normalizeWith cfg p m).metrics, isScalarVal kv.2 = true := by
  rw [normalizeWith_metrics]
  exact fun kv h => validate_metrics_values_scalar _ kv h

theorem build_location_elevation (p : Obj) :
    (_build_location p).elevation_ft =
      pyInt (if isNull (nestedElevChain p) then
               pyOr (dictGet p "elevation_ft") (dictGet p "elevation")
             else nestedElevChain p) := by
  unfold _build_location nestedElevChain
  cases hb : pyOr (dictGet p "location") (pyOr (dictGet p "coordinates") (.obj [])) <;> rfl

/-! ### Claims -/

/-- C1 (code bug): normalization is not side-effect-free on its input.  On
the payload whose nested `metrics` mapping coexists with the top-level
bulletin metric key `rose`, the metric-overlay loop writes through the
alias `raw_metrics = payload.get("metrics") or` the empty dict, so the raw
payload serialized for persistence after normalization differs from the
payload the caller supplied, contradicting the specified invariant that
the persisted raw payload always matches exactly what was submitted. -/
theorem C1_raw_payload_mutated :
    payloadAfterDispatch "bulletin" c1Payload = c1PayloadMutated ∧
    persistedRawPayloadJson "bulletin" c1Payload ≠ jsonDumps (.obj c1Payload) ∧
    (normalize_bulletin c1Payload metaT).metrics = [("a", .int 1), ("rose", .int 2)] := by
  refine ⟨rfl, ?_, rfl⟩
  intro h
  rw [show persistedRawPayloadJson "bulletin" c1Payload = jsonDumps (.obj c1PayloadMutated)
      from rfl, c1_json_after, c1_json_before] at h
  exact absurd h (by decide)

/-- C2 (confirmed): for every payload and record type, the quality flags
are the four base conditions in the fixed order `missing_coordinates`,
`missing_timestamp`, `unknown_severity`, `empty_summary` (each present
exactly when its condition holds on the built record), with the
`invalid_metric_type` flags from metric validation appended after, the
whole list deduplicated preserving first occurrence, hence duplicate-free;
and normalizing the empty payload as a bulletin yields exactly the four
base flags in order. -/
theorem C2_quality_flags_order (p : Obj) (m : ProviderMeta) :
    (∀ cfg : NormalizerConfig, (normalizeWith cfg p m).quality_flags =
        dedupFirst
          (qualityFlagOrder.filter
              (qualityConditionHolds (normalizeWith cfg p m).location
                (normalizeWith cfg p m).event_time (normalizeWith cfg p m).severity
                (normalizeWith cfg p m).summary) ++
            (validate_metrics (overlayMetrics (baseMetrics p) p cfg.metricKeys)).2)) ∧
    (∀ cfg : NormalizerConfig,
        (validate_metrics (overlayMetrics (baseMetrics p) p cfg.metricKeys)).2 =
          ((overlayMetrics (baseMetrics p) p cfg.metricKeys).filter
              (fun kv => !isScalarVal kv.2)).map (fun _ => "invalid_metric_type")) ∧
    (∀ cfg : NormalizerConfig, (normalizeWith cfg p m).quality_flags.Nodup) ∧
    normalize_bulletin = normalizeWith bulletinConfig ∧
    normalize_observation = normalizeWith observationConfig ∧
    normalize_weather = normalizeWith weatherConfig ∧
    (normalize_bulletin [] m).quality_flags =
      ["missing_coordinates", "missing_timestamp", "unknown_severity", "empty_summary"] := by
  refine ⟨?_, ?_, ?_, rfl, rfl, rfl, rfl⟩
  · intro cfg
    rw [normalizeWith_quality_flags, collect_quality_flags_eq_filter]
  · intro cfg
    rw [validate_metrics_eq]
  · intro cfg
    rw [normalizeWith_quality_flags]
    exact nodup_dedupFirst _

/-- C3 counterexample: the claim asserts that a payload with top-level
`lat = 0` and no `lon` yields `(0.0, null)`, but `extract_coordinates`
selects candidates with Python `or`, which treats the falsy `0` as absent:
the result is `(null, null)`. -/
theorem C3_counterexample :
    extract_coordinates [("lat", .int 0)] = (none, none) ∧
    extract_coordinates [("lat", .int 0)] ≠ (some (0, 0), none) := by
  refine ⟨rfl, ?_⟩
  intro h
  rw [show extract_coordinates [("lat", JVal.int 0)] = (none, none) from rfl] at h
  exact absurd h (by decide)

/-- C3 (amended): `extract_coordinates` selects the top-level chains
`lat or latitude` and `lon or longitude` and falls back to a nested
`location`/`coordinates` mapping only when both chains produced null — a
falsy coordinate value such as `0` falls through its chain as if absent.
Whenever at least one chain is non-null, each chain value is independently
coerced to float, absence or coercion failure yielding null for that
coordinate only; in particular a payload with a truthy top-level `lat` and
absent `lon`/`longitude` yields `(float(lat), null)`. -/
theorem C3_extract_coordinates_amended (p : Obj) :
    (isNull (pyOr (dictGet p "lat") (dictGet p "latitude")) = false ∨
        isNull (pyOr (dictGet p "lon") (dictGet p "longitude")) = false →
      extract_coordinates p =
        (pyFloat (pyOr (dictGet p "lat") (dictGet p "latitude")),
         pyFloat (pyOr (dictGet p "lon") (dictGet p "longitude")))) ∧
    (truthy (dictGet p "lat") = true → dictGet p "lon" = .null → dictGet p "longitude" = .null →
      extract_coordinates p = (pyFloat (dictGet p "lat"), none)) := by
  constructor
  · intro h
    rcases h with h | h <;> simp [extract_coordinates, h]
  · intro h1 h2 h3
    have hn := isNull_eq_false_of_truthy _ h1
    have hlat : pyOr (dictGet p "lat") (dictGet p "latitude") = dictGet p "lat" := by
      simp [pyOr, h1]
    have hlon : pyOr (dictGet p "lon") (dictGet p "longitude") = JVal.null := by
      rw [h2, h3]; rfl
    simp [extract_coordinates, hlat, hlon, hn]
    rfl

/-- C3 witness: the amended statement applied to the payload holding only
`lat = 40.5`. -/
theorem C3_witness :
    truthy (dictGet [("lat", JVal.float 405 1)] "lat") = true ∧
    extract_coordinates [("lat", JVal.float 405 1)] = (some (405, 1), none) :=
  ⟨by decide, (C3_extract_coordinates_amended _).2 (by decide) rfl rfl⟩

/-- C4 counterexample: the numeric epoch `0` is parseable, yet a bulletin
payload whose only timestamp candidate is `timestamp = 0` is flagged
`missing_timestamp`, because the `or`-chain over candidate keys skips the
falsy `0`. -/
theorem C4_counterexample :
    parse_timestamp (.int 0) = some "1970-01-01T00:00:00+00:00" ∧
    "missing_timestamp" ∈ (normalize_bulletin [("timestamp", .int 0)] metaT).quality_flags := by
  refine ⟨rfl, ?_⟩
  rw [show (normalize_bulletin [("timestamp", JVal.int 0)] metaT).quality_flags =
      ["missing_coordinates", "missing_timestamp", "unknown_severity", "empty_summary"] from rfl]
  decide

/-- C4 (amended): for every payload and record type, the fragment carries
`missing_timestamp` exactly when the value selected by the Python
`or`-chain over the ordered per-type timestamp-candidate keys (first truthy
candidate wins; falsy candidates such as the numeric epoch `0` are skipped
as if absent) does not parse. -/
theorem C4_missing_timestamp_amended (p : Obj) (m : ProviderMeta) :
    ("missing_timestamp" ∈ (normalize_bulletin p m).quality_flags ↔
      parse_timestamp (orChain p bulletinConfig.timeKeys) = none) ∧
    ("missing_timestamp" ∈ (normalize_observation p m).quality_flags ↔
      parse_timestamp (orChain p observationConfig.timeKeys) = none) ∧
    ("missing_timestamp" ∈ (normalize_weather p m).quality_flags ↔
      parse_timestamp (orChain p weatherConfig.timeKeys) = none) :=
  ⟨mem_missing_timestamp_iff bulletinConfig p m,
   mem_missing_timestamp_iff observationConfig p m,
   mem_missing_timestamp_iff weatherConfig p m⟩

/-- C4 witness: the amended statement applied to the payload whose only
candidate is the epoch 0. -/
theorem C4_witness :
    parse_timestamp (orChain [("timestamp", JVal.int 0)] bulletinConfig.timeKeys) = none ∧
    "missing_timestamp" ∈ (normalize_bulletin [("timestamp", JVal.int 0)] metaT).quality_flags :=
  ⟨rfl, (C4_missing_timestamp_amended [("timestamp", JVal.int 0)] metaT).1.mpr rfl⟩

/-- C5 counterexample: Python booleans are instances of `int`, so
`parse_timestamp(True)` takes the numeric-epoch path and returns the epoch
second 1 instead of the null the claim asserts for booleans. -/
theorem C5_counterexample :
    parse_timestamp (.bool true) = some "1970-01-01T00:00:01+00:00" ∧
    parse_timestamp (.bool true) ≠ none := by
  refine ⟨rfl, ?_⟩
  intro h
  exact Option.noConfusion
    ((show some "1970-01-01T00:00:01+00:00" = parse_timestamp (JVal.bool true) from rfl).trans h)

/-- C5 (amended): `parse_timestamp` maps null to null; integral input is
interpreted as a UTC epoch in seconds, yielding a rendered instant inside
the representable year range and null outside it; booleans, being
integral in Python, follow the numeric path as epochs 0 and 1; string
input is trimmed and tried against the six fixed formats in order with
the first successful parse winning and a parse lacking a timezone assumed
UTC; every produced output ends in an explicitly rendered UTC offset
designator; lists and mappings yield null. -/
theorem C5_parse_timestamp_amended :
    parse_timestamp .null = none ∧
    (∀ n : Int, epochInRange n → ∃ out, parse_timestamp (.int n) = some out) ∧
    (∀ n : Int, ¬ epochInRange n → parse_timestamp (.int n) = none) ∧
    (∀ v out, parse_timestamp v = some out → ∃ pre off, out = pre ++ renderOffset off) ∧
    (∀ elems, parse_timestamp (.arr elems) = none) ∧
    (∀ entries, parse_timestamp (.obj entries) = none) ∧
    parse_timestamp (.bool false) = some "1970-01-01T00:00:00+00:00" ∧
    parse_timestamp (.bool true) = some "1970-01-01T00:00:01+00:00" ∧
    parse_timestamp (.str "  2024-01-02  ") = some "2024-01-02T00:00:00+00:00" ∧
    parse_timestamp (.str "2024-01-02T03:04:05+0530") = some "2024-01-02T03:04:05+05:30" ∧
    parse_timestamp (.str "2024-01-02T03:04:05Z") = some "2024-01-02T03:04:05+00:00" ∧
    parse_timestamp (.str "not a date") = none := by
  refine ⟨rfl, ?_, ?_, parse_timestamp_some_shape, fun _ => rfl, fun _ => rfl,
    rfl, rfl, rfl, rfl, rfl, rfl⟩
  · intro n h
    rw [show parse_timestamp (JVal.int n) = epochIso n 0 from rfl]
    unfold epochIso
    rw [if_pos h]
    exact ⟨_, rfl⟩
  · intro n h
    simp only [parse_timestamp, epochIso, if_neg h]

/-- C5 witness: the amended statement applied at epoch 0 and at a parsed
string output. -/
theorem C5_witness :
    epochInRange 0 ∧ (∃ out, parse_timestamp (JVal.int 0) = some out) ∧
    (∃ pre off, "2024-01-02T03:04:05+00:00" = pre ++ renderOffset off) :=
  ⟨by decide, C5_parse_timestamp_amended.2.1 0 (by decide),
   C5_parse_timestamp_amended.2.2.2.1 (JVal.str "2024-01-02T03:04:05Z")
     "2024-01-02T03:04:05+00:00" rfl⟩

/-- C6 (confirmed): each of the three supported record types dispatches to
its normalizer and the `record_type` of the produced fragment equals the
requested type; every other record type fails with the
`UnsupportedRecordType` error carrying the offending type and the list of
the three supported types, and no fragment is constructed. -/
theorem C6_dispatch_by_type (record_type : String) (p : Obj) (m : ProviderMeta) :
    dispatch_normalizer "bulletin" p m = .ok (normalize_bulletin p m) ∧
    (normalize_bulletin p m).record_type = "bulletin" ∧
    dispatch_normalizer "observation" p m = .ok (normalize_observation p m) ∧
    (normalize_observation p m).record_type = "observation" ∧
    dispatch_normalizer "weather" p m = .ok (normalize_weather p m) ∧
    (normalize_weather p m).record_type = "weather" ∧
    (record_type ∉ supportedRecordTypes →
      dispatch_normalizer record_type p m =
        .error (.unsupportedRecordType record_type supportedRecordTypes)) :=
  ⟨rfl, rfl, rfl, rfl, rfl, rfl, fun h => dispatch_unsupported record_type p m h⟩

/-- C6 witness: dispatching the unsupported type `forecast`. -/
theorem C6_witness :
    "forecast" ∉ supportedRecordTypes ∧
    dispatch_normalizer "forecast" [] metaT =
      .error (.unsupportedRecordType "forecast" supportedRecordTypes) :=
  ⟨by decide, (C6_dispatch_by_type "forecast" [] metaT).2.2.2.2.2.2 (by decide)⟩

/-- C7 counterexample: the overlay key `rose` is present in the payload
with a null value, and null is a retained metric value, so under the claim
the top-level null should win; but the overlay loop skips values that are
`None`, and the nested metric survives as `1`. -/
theorem C7_counterexample :
    dictHasKey c7Payload "rose" = true ∧
    dictFind (normalize_bulletin c7Payload metaT).metrics "rose" = some (.int 1) ∧
    dictFind (normalize_bulletin c7Payload metaT).metrics "rose" ≠ some .null := by
  refine ⟨rfl, rfl, ?_⟩
  intro h
  rw [show dictFind (normalize_bulletin c7Payload metaT).metrics "rose" = some (JVal.int 1)
      from rfl] at h
  exact JVal.noConfusion (Option.some.inj h)

/-- C7 (amended): the metrics are built from the `metrics` sub-mapping
when present and a mapping (else empty), overlaid with the type-specific
top-level keys whenever present with a non-null value — the top-level
value then winning on conflict — and passed through `validate_metrics`,
which keeps exactly the scalar-valued entries unchanged and emits one
`invalid_metric_type` flag per dropped entry. -/
theorem C7_metrics_overlay_amended :
    (∀ ms : Obj, validate_metrics ms =
        (ms.filter (fun kv => isScalarVal kv.2),
         (ms.filter (fun kv => !isScalarVal kv.2)).map (fun _ => "invalid_metric_type"))) ∧
    (∀ (cfg : NormalizerConfig) (p : Obj) (m : ProviderMeta) (k : String),
        k ∈ cfg.metricKeys → isNull (dictGet p k) = false → isScalarVal (dictGet p k) = true →
        dictGet (normalizeWith cfg p m).metrics k = dictGet p k) ∧
    (∀ (cfg : NormalizerConfig) (p : Obj) (m : ProviderMeta),
        (normalizeWith cfg p m).metrics =
          (validate_metrics (overlayMetrics (baseMetrics p) p cfg.metricKeys)).1) ∧
    normalize_bulletin = normalizeWith bulletinConfig ∧
    normalize_observation = normalizeWith observationConfig ∧
    normalize_weather = normalizeWith weatherConfig := by
  refine ⟨validate_metrics_eq, ?_, fun cfg p m => rfl, rfl, rfl, rfl⟩
  intro cfg p m k hk hnn hs
  have hov : dictGet (overlayMetrics (baseMetrics p) p cfg.metricKeys) k = dictGet p k :=
    overlayMetrics_get_mem p cfg.metricKeys k hk hnn (baseMetrics p)
  have hsc : isScalarVal (dictGet (overlayMetrics (baseMetrics p) p cfg.metricKeys) k) = true := by
    rw [hov]; exact hs
  rw [normalizeWith_metrics, validate_metrics_eq]
  exact (dictGet_filter_scalar _ _ hsc).trans hov

/-- C7 witness: the amended overlay statement applied to a bulletin
payload where `rose` appears both nested and top-level with value 9. -/
theorem C7_witness :
    "rose" ∈ bulletinConfig.metricKeys ∧
    dictGet (normalizeWith bulletinConfig
        [("metrics", JVal.obj [("rose", JVal.int 1)]), ("rose", JVal.int 9)] metaT).metrics "rose" =
      dictGet [("metrics", JVal.obj [("rose", JVal.int 1)]), ("rose", JVal.int 9)] "rose" :=
  ⟨by decide, C7_metrics_overlay_amended.2.1 bulletinConfig
    [("metrics", JVal.obj [("rose", JVal.int 1)]), ("rose", JVal.int 9)] metaT "rose"
    (by decide) (by decide) (by decide)⟩

/-- C8 (confirmed): for every record type, payload and metadata, dispatch
succeeds exactly on the three supported types — on arbitrary payloads,
with no other failure mode — and the produced fragment degrades anomalies:
its severity is always one of the six canonical levels and its metrics
retain only scalar values. -/
theorem C8_total_on_json (rt : String) (p : Obj) (m : ProviderMeta) :
    ((∃ r, dispatch_normalizer rt p m = .ok r) ↔ rt ∈ supportedRecordTypes) ∧
    (∀ e, dispatch_normalizer rt p m = .error e →
      rt ∉ supportedRecordTypes ∧ e = .unsupportedRecordType rt supportedRecordTypes) ∧
    (∀ r, dispatch_normalizer rt p m = .ok r →
      r.severity ∈ severityLevels ∧ ∀ kv ∈ r.metrics, isScalarVal kv.2 = true) := by
  refine ⟨dispatch_ok_iff rt p m, fun e he => dispatch_error_shape rt p m e he, ?_⟩
  intro r hr
  unfold dispatch_normalizer at hr
  split at hr
  · rw [← Except.ok.inj hr]
    exact ⟨normalizeWith_severity_mem _ p m, normalizeWith_metrics_scalar _ p m⟩
  · split at hr
    · rw [← Except.ok.inj hr]
      exact ⟨normalizeWith_severity_mem _ p m, normalizeWith_metrics_scalar _ p m⟩
    · split at hr
      · rw [← Except.ok.inj hr]
        exact ⟨normalizeWith_severity_mem _ p m, normalizeWith_metrics_scalar _ p m⟩
      · exact Except.noConfusion hr

/-- C8 witness: dispatch succeeds on a hostile payload (non-mapping
metrics, list coordinates, mapping severity) for the supported type. -/
theorem C8_witness :
    "bulletin" ∈ supportedRecordTypes ∧
    (∃ r, dispatch_normalizer "bulletin"
      [("metrics", JVal.str "oops"), ("lat", JVal.arr [JVal.int 1]),
       ("danger", JVal.obj [("x", JVal.null)])] metaT = .ok r) :=
  ⟨by decide, (C8_total_on_json "bulletin"
    [("metrics", JVal.str "oops"), ("lat", JVal.arr [JVal.int 1]),
     ("danger", JVal.obj [("x", JVal.null)])] metaT).1.mpr (by decide)⟩

/-- C9 (confirmed): in a batch whose only unsupported item sits at
position `k = pre.length` (every other item having a supported type), the
response reports all of total, one failure and the rest successes, the
results list preserves input order and length with the failure entry
carrying the error at position `k`, each result is a function of its own
item alone, and every other position holds a success entry. -/
theorem C9_batch_isolation (pre post : List IngestItem) (bad : IngestItem)
    (hpre : ∀ it ∈ pre, it.record_type ∈ supportedRecordTypes)
    (hpost : ∀ it ∈ post, it.record_type ∈ supportedRecordTypes)
    (hbad : bad.record_type ∉ supportedRecordTypes) :
    (ingest_batch (pre ++ bad :: post)).total_count = (pre ++ bad :: post).length ∧
    (ingest_batch (pre ++ bad :: post)).failed_count = 1 ∧
    (ingest_batch (pre ++ bad :: post)).success_count = (pre ++ bad :: post).length - 1 ∧
    (ingest_batch (pre ++ bad :: post)).results.length = (pre ++ bad :: post).length ∧
    (ingest_batch (pre ++ bad :: post)).results[pre.length]? =
      some (.error (.unsupportedRecordType bad.record_type supportedRecordTypes)) ∧
    (∀ i : Nat, (ingest_batch (pre ++ bad :: post)).results[i]? =
      ((pre ++ bad :: post)[i]?).map _process_ingest) ∧
    (∀ i : Nat, i < (pre ++ bad :: post).length → i ≠ pre.length →
      ∃ r, (ingest_batch (pre ++ bad :: post)).results[i]? = some (.ok r)) := by
  have hmap : (ingest_batch (pre ++ bad :: post)).results =
      pre.map _process_ingest ++ _process_ingest bad :: post.map _process_ingest := by
    show (pre ++ bad :: post).map _process_ingest = _
    rw [List.map_append, List.map_cons]
  have hfpre : (pre.map _process_ingest).filter isOkResult = pre.map _process_ingest :=
    List.filter_eq_self.mpr (fun x hx => by
      obtain ⟨it, hit, rfl⟩ := List.mem_map.mp hx
      exact (isOk_processIngest_iff it).mpr (hpre it hit))
  have hfpost : (post.map _process_ingest).filter isOkResult = post.map _process_ingest :=
    List.filter_eq_self.mpr (fun x hx => by
      obtain ⟨it, hit, rfl⟩ := List.mem_map.mp hx
      exact (isOk_processIngest_iff it).mpr (hpost it hit))
  have hbadres : _process_ingest bad =
      .error (.unsupportedRecordType bad.record_type supportedRecordTypes) :=
    processIngest_unsupported bad hbad
  have hokbad : isOkResult (_process_ingest bad) = false := by rw [hbadres]; rfl
  have hsucc : (ingest_batch (pre ++ bad :: post)).success_count =
      pre.length + post.length := by
    show (((pre ++ bad :: post).map _process_ingest).filter isOkResult).length = _
    rw [List.map_append, List.map_cons, List.filter_append, hfpre,
      List.filter_cons, hokbad]
    simp [hfpost]
  have hlen : (pre ++ bad :: post).length = pre.length + post.length + 1 := by
    simp [List.length_append]
    omega
  refine ⟨rfl, ?_, ?_, ?_, ?_, ?_, ?_⟩
  · show (pre ++ bad :: post).length -
      (((pre ++ bad :: post).map _process_ingest).filter isOkResult).length = 1
    have := hsucc
    rw [show (((pre ++ bad :: post).map _process_ingest).filter isOkResult).length =
      (ingest_batch (pre ++ bad :: post)).success_count from rfl, this, hlen]
    omega
  · rw [hsucc, hlen]
    omega
  · rw [hmap]
    simp [hlen]
    omega
  · rw [hmap, List.getElem?_append_right (by simp)]
    simp [hbadres]
  · intro i
    show ((pre ++ bad :: post).map _process_ingest)[i]? = _
    exact List.getElem?_map _ _ _
  · intro i hi hne
    have hres : (ingest_batch (pre ++ bad :: post)).results[i]? =
        ((pre ++ bad :: post)[i]?).map _process_ingest := List.getElem?_map _ _ _
    rcases Nat.lt_or_ge i pre.length with hlt | hge
    · have hitem : (pre ++ bad :: post)[i]? = some pre[i] := by
        rw [List.getElem?_append_left hlt, List.getElem?_eq_getElem hlt]
      have hsup := hpre pre[i] (List.getElem_mem hlt)
      obtain ⟨r, hr⟩ := (dispatch_ok_iff pre[i].record_type pre[i].payload
        (ProviderMeta.mk pre[i].provider_id pre[i].provider_name)).mpr hsup
      exact ⟨r, by rw [hres, hitem, Option.map_some']; exact congrArg some hr⟩
    · have hgt : pre.length < i := lt_of_le_of_ne hge (fun he => hne he.symm)
      obtain ⟨j, hj⟩ : ∃ j, i - pre.length = j + 1 := ⟨i - pre.length - 1, by omega⟩
      have hjlt : j < post.length := by
        rw [hlen] at hi
        omega
      have hitem : (pre ++ bad :: post)[i]? = some post[j] := by
        rw [List.getElem?_append_right (le_of_lt hgt), hj, List.getElem?_cons_succ,
          List.getElem?_eq_getElem hjlt]
      have hsup := hpost post[j] (List.getElem_mem hjlt)
      obtain ⟨r, hr⟩ := (dispatch_ok_iff post[j].record_type post[j].payload
        (ProviderMeta.mk post[j].provider_id post[j].provider_name)).mpr hsup
      exact ⟨r, by rw [hres, hitem, Option.map_some']; exact congrArg some hr⟩

/-- C9 witness: the isolation statement applied to the concrete batch
`[itemA, itemBad, itemC]` with the invalid item at position 1. -/
theorem C9_witness :
    (ingest_batch [itemA, itemBad, itemC]).total_count = 3 ∧
    (ingest_batch [itemA, itemBad, itemC]).success_count = 2 ∧
    (ingest_batch [itemA, itemBad, itemC]).failed_count = 1 ∧
    (ingest_batch [itemA, itemBad, itemC]).results[1]? =
      some (.error (.unsupportedRecordType "invalid_type" supportedRecordTypes)) := by
  have h := C9_batch_isolation [itemA] [itemC] itemBad
    (by intro it hit; rw [List.mem_singleton] at hit; subst hit; decide)
    (by intro it hit; rw [List.mem_singleton] at hit; subst hit; decide)
    (by decide)
  exact ⟨h.1, h.2.2.1, h.2.1, h.2.2.2.2.1⟩

/-- C10 counterexample: on the payload whose nested block holds
`elevation = ""` and whose top level holds `elevation = 100`, the first
truthy candidate in the claimed order is `100` and its integer coercion is
`100`, yet the built location has a null `elevation_ft`: the falsy but
non-null nested chain result blocks the top-level fallback and then fails
coercion. -/
theorem C10_counterexample :
    claimElevationCandidate c10Payload = .int 100 ∧
    pyInt (.int 100) = some 100 ∧
    (_build_location c10Payload).elevation_ft = none ∧
    (_build_location c10Payload).elevation_ft ≠ some 100 := by
  refine ⟨rfl, rfl, rfl, ?_⟩
  intro h
  rw [show (_build_location c10Payload).elevation_ft = none from rfl] at h
  exact Option.noConfusion h

/-- C10 (amended): in the location built by every normalizer,
`elevation_ft` is the `int(...)` coercion of the value selected as
follows: the nested block chain `elevation_ft or elevation` under Python
`or`-semantics (the second value, whatever it is, when the first is
falsy); only when that nested chain is null, the top-level
`elevation_ft or elevation` chain.  Floats truncate toward zero,
integer-formatted strings parse, any other value — for example the string
`7213.5` — yields null.  A zero in first chain position is skipped, so a
payload whose only elevation datum is `elevation_ft = 0` gets a null
`elevation_ft`, while `elevation = 0` survives its chain and coerces to
`0`. -/
theorem C10_elevation_amended :
    (∀ (p : Obj) (m : ProviderMeta),
      (normalize_bulletin p m).location = _build_location p ∧
      (normalize_observation p m).location = _build_location p ∧
      (normalize_weather p m).location = _build_location p) ∧
    (∀ p : Obj, (_build_location p).elevation_ft =
      pyInt (if isNull (nestedElevChain p) then
               pyOr (dictGet p "elevation_ft") (dictGet p "elevation")
             else nestedElevChain p)) ∧
    (∀ (man : Int) (e : Nat), pyInt (.float man e) = some (Int.tdiv man (10 ^ e))) ∧
    pyInt (.str "7213") = some 7213 ∧
    pyInt (.str "7213.5") = none ∧
    (_build_location [("elevation_ft", .int 0)]).elevation_ft = none ∧
    (_build_location [("elevation_ft", .int 0), ("elevation", .int 100)]).elevation_ft = some 100 ∧
    (_build_location [("elevation", .int 0)]).elevation_ft = some 0 :=
  ⟨fun _ _ => ⟨rfl, rfl, rfl⟩, build_location_elevation, fun _ _ => rfl,
   rfl, rfl, rfl, rfl, rfl⟩

/-! ### Concrete evaluations

Cross-checks of the embedding against the behavior of the reference
functions (mirroring the repository test suite and the boundary cases the
claims turn on); each reduces by kernel computation. -/
example : parse_timestamp (.str "2024-01-15T12:00:00Z") = some "2024-01-15T12:00:00+00:00" := rfl
example : parse_timestamp (.str "2024-01-15T12:00:00+0530") = some "2024-01-15T12:00:00+05:30" := rfl
example : parse_timestamp (.str "2024-01-15T12:00:00+05:30") = some "2024-01-15T12:00:00+05:30" := rfl
example : parse_timestamp (.str "2024-01-15T12:00:00-0700") = some "2024-01-15T12:00:00-07:00" := rfl
example : parse_timestamp (.str "2024-01-15 12:00:00") = some "2024-01-15T12:00:00+00:00" := rfl
example : parse_timestamp (.str "2024-01-15") = some "2024-01-15T00:00:00+00:00" := rfl
example : parse_timestamp (.str " 2024-01-15  ") = some "2024-01-15T00:00:00+00:00" := rfl
example : parse_timestamp (.str "2024-01-15T12:00:00.123456+00:00") = some "2024-01-15T12:00:00.123456+00:00" := rfl
example : parse_timestamp (.str "2024-01-15T12:00:00.5Z") = some "2024-01-15T12:00:00.500000+00:00" := rfl
example : parse_timestamp (.str "2024-01-15T12:00:00.123Z") = some "2024-01-15T12:00:00.123000+00:00" := rfl
example : parse_timestamp (.str "2024-01-15  12:00:00") = some "2024-01-15T12:00:00+00:00" := rfl
example : parse_timestamp (.str "2024-13-01") = none := rfl
example : parse_timestamp (.str "2023-02-29") = none := rfl
example : parse_timestamp (.str "2024-02-29") = some "2024-02-29T00:00:00+00:00" := rfl
example : parse_timestamp (.str "garbage") = none := rfl
example : parse_timestamp (.str "") = none := rfl
example : parse_timestamp (.str "0000-01-01") = none := rfl
example : parse_timestamp (.int 0) = some "1970-01-01T00:00:00+00:00" := rfl
example : parse_timestamp (.int 1705315200) = some "2024-01-15T10:40:00+00:00" := rfl
example : parse_timestamp (.int 253402300799) = some "9999-12-31T23:59:59+00:00" := rfl
example : parse_timestamp (.int 253402300800) = none := rfl
example : parse_timestamp (.int (-62135596800)) = some "0001-01-01T00:00:00+00:00" := rfl
example : parse_timestamp (.int (-62135596801)) = none := rfl
example : parse_timestamp (.bool true) = some "1970-01-01T00:00:01+00:00" := rfl
example : parse_timestamp (.bool false) = some "1970-01-01T00:00:00+00:00" := rfl
example : parse_timestamp (.float (-5) 1) = some "1969-12-31T23:59:59.500000+00:00" := rfl
example : parse_timestamp (.float 15 1) = some "1970-01-01T00:00:01.500000+00:00" := rfl
example : parse_timestamp (.float 25 1) = some "1970-01-01T00:00:02.500000+00:00" := rfl
example : parse_timestamp .null = none := rfl
example : parse_timestamp (.arr []) = none := rfl
example : parse_timestamp (.obj []) = none := rfl
example : parse_timestamp (.str "2024-1-5") = some "2024-01-05T00:00:00+00:00" := rfl
example : parse_timestamp (.str "2024-01-15t12:00:00z") = some "2024-01-15T12:00:00+00:00" := rfl
example : parse_timestamp (.str "2024-01-15T12:00:60Z") = none := rfl
example : parse_timestamp (.str "2024-01-15T12:00:00+2400") = none := rfl
example : parse_timestamp (.str "2024-01-15T12:00:00+05:30:15") = some "2024-01-15T12:00:00+05:30:15" := rfl
example : parse_timestamp (.str "2024-01-15T12:00:00x") = none := rfl
example : parse_timestamp (.str "2024-01-15T12:00:00+0530:15") = none := rfl
example : parse_timestamp (.str "2024-01-15T12:00:00+05:3015") = none := rfl
example : pyFloat (.str "1.") = some (1, 0) := rfl
example : pyFloat (.str ".5") = some (5, 1) := rfl
example : pyFloat (.str "1e3") = some (1000, 0) := rfl
example : pyFloat (.str "1.5e-3") = some (15, 4) := rfl
example : pyFloat (.str " 40.0 ") = some (400, 1) := rfl
example : pyFloat (.str "abc") = none := rfl
example : pyFloat (.str "") = none := rfl
example : pyFloat (.str "-.5") = some (-5, 1) := rfl
example : pyFloat (.str "+1.5") = some (15, 1) := rfl
example : pyFloat (.str "1e") = none := rfl
example : pyFloat (.str "e3") = none := rfl
example : pyInt (.str " 42 ") = some 42 := rfl
example : pyInt (.str "+7") = some 7 := rfl
example : pyInt (.str "-7213") = some (-7213) := rfl
example : pyInt (.str "7213.5") = none := rfl
example : pyInt (.float (-72135) 1) = some (-7213) := rfl
example : pyInt (.float 72139 1) = some 7213 := rfl
example : pyInt (.bool true) = some 1 := rfl
example : pyStr (.float 3 0) = "3.0" := rfl
example : pyStr (.float 485 1) = "48.5" := rfl
example : pyStr (.float 5 1) = "0.5" := rfl
example : pyStr (.float (-5) 1) = "-0.5" := rfl
example : pyStr (.float 180 1) = "18.0" := rfl

example :
    (normalize_bulletin [("danger", .str "considerable"), ("issued_at", .str "2024-01-15T12:00:00Z"),
      ("summary", .str "High danger above treeline."), ("region", .str "North Cascades"),
      ("lat", .float 485 1), ("lon", .float (-1213) 1)] metaT).quality_flags = [] := rfl
example :
    (normalize_bulletin [("danger", .str "considerable"), ("issued_at", .str "2024-01-15T12:00:00Z"),
      ("summary", .str "High danger above treeline."), ("region", .str "North Cascades"),
      ("lat", .float 485 1), ("lon", .float (-1213) 1)] metaT).severity = "considerable" := rfl
example : (normalize_bulletin [] metaT).quality_flags =
    ["missing_coordinates", "missing_timestamp", "unknown_severity", "empty_summary"] := rfl
example : (normalize_bulletin [("danger", .str "4")] metaT).severity = "high" := rfl
example : (normalize_weather [("timestamp", .str "2024-03-01T06:00:00Z"), ("description", .str "Icy."),
    ("lat", .float 468 1), ("lon", .float (-1217) 1),
    ("metrics", .obj [("complex_val", .arr [.int 1, .int 2, .int 3])])] metaT).quality_flags =
    ["unknown_severity", "invalid_metric_type"] := rfl
example : (normalize_bulletin [("danger", .str "moderate"), ("issued_at", .str "2024-01-01T00:00:00Z"),
    ("summary", .str "Moderate conditions."),
    ("location", .obj [("lat", .float 441 1), ("lon", .float (-1105) 1), ("name", .str "Teton Pass"),
      ("elevation_ft", .int 8431)])] metaT).location =
    Location.mk (some "Teton Pass") (some (441, 1)) (some (-1105, 1)) (some 8431) := rfl
example : payloadAfterNormalize bulletinConfig c1Payload = c1PayloadMutated := rfl
example : extract_coordinates [("lat", .int 0)] = (none, none) := rfl
example : extract_coordinates [("latitude", .int 0)] = (some (0, 0), none) := rfl
example : extract_coordinates [("lat", .float 405 1)] = (some (405, 1), none) := rfl
example : (normalize_bulletin [("timestamp", .int 0)] metaT).quality_flags =
    ["missing_coordinates", "missing_timestamp", "unknown_severity", "empty_summary"] := rfl
example : (normalize_bulletin [("timestamp", .int 5)] metaT).event_time =
    some "1970-01-01T00:00:05+00:00" := rfl
example : (normalize_bulletin c7Payload metaT).metrics = [("rose", .int 1)] := rfl
example : (normalize_bulletin [("metrics", .obj [("rose", .int 1)]), ("rose", .int 9)] metaT).metrics =
    [("rose", .int 9)] := rfl
example : (_build_location c10Payload).elevation_ft = none := rfl
example : (_build_location [("elevation", .int 0)]).elevation_ft = some 0 := rfl
example : (_build_location [("elevation_ft", .int 0)]).elevation_ft = none := rfl
example : (_build_location [("location", .obj [("elevation_ft", .int 0)]), ("elevation", .int 100)]).elevation_ft = some 100 := rfl
example : (_build_location [("elevation", .float 72135 1)]).elevation_ft = some 7213 := rfl
example : (_build_location [("elevation_ft", .str "7213")]).elevation_ft = some 7213 := rfl
example : (_build_location [("elevation_ft", .str "7213.5")]).elevation_ft = none := rfl
example : (_build_location [("elevation", .int 0), ("elevation_ft", .int 7000)]).elevation_ft = some 7000 := rfl
example : claimElevationCandidate c10Payload = .int 100 := rfl
example : _process_ingest (IngestItem.mk "p" "n" "forecast" []) =
    .error (.unsupportedRecordType "forecast" ["bulletin", "observation", "weather"]) := rfl
example : (ingest_batch [itemA, itemBad, itemC]).success_count = 2 := rfl
example : (ingest_batch [itemA, itemBad, itemC]).failed_count = 1 := rfl
example : (ingest_batch [itemA, itemBad, itemC]).total_count = 3 := rfl

end TerraSatch
